import Mathlib

/-! Smart traffic light: pedestrian-crossing controller.

A shallow embedding of `src/code/main.cpp`, which holds two programs:

* the dual-sensor program (two PIR sensors, lines 1-346), namespace `Dual`;
* the single-sensor program (one PIR sensor, lines 348-640), namespace `Single`.

Each FreeRTOS task is an endless `while (1)` loop.  One pass of a loop body is a
function from the task's local variables, the shared objects it reads and the
values the environment hands it (pin readings, `millis()` readings) to the new
locals and the new shared objects.  The tasks are interleaved at the
granularity of whole passes; `Dual.FineSys` also splits the traffic task at the
sleeps inside its alert, so that the other two tasks can run during an alert,
and `Dual.Sys.beginPIR` and `Dual.Sys.finishPIR` split a pass of the motion task
at its sleep in `confirmHigh`.

`uint32_t` values are naturals below `2 ^ 32`; subtraction and addition wrap.
The event group is a natural number used as a bit mask.  The OLED text and the
serial log are outputs only and never read back, so `oledShow`, `lastOled` and
`Serial.println` are left out, except that the three messages of the button task
are kept as a tag naming the branch taken.
-/

namespace TrafficLight

/-! ## Machine integers and the event group -/

/-- Unsigned 32-bit subtraction `a - b` as the compiler does it for `uint32_t`. -/
def sub32 (a b : Nat) : Nat := (a % 4294967296 + (4294967296 - b % 4294967296)) % 4294967296

/-- Unsigned 32-bit addition `a + b`. -/
def add32 (a b : Nat) : Nat := (a + b) % 4294967296

/-- The value of a `uint32_t` variable assigned from `x`. -/
def u32 (x : Nat) : Nat := x % 4294967296

/-- Type of the bits of the FreeRTOS event group `gEvent`. -/
abbrev EventBits := Nat

def EVT_CROSS_REQ : EventBits := 1 <<< 0
def EVT_CROSS_ACTIVE : EventBits := 1 <<< 1
def EVT_ILLEGAL : EventBits := 1 <<< 2

/-- FreeRTOS `xEventGroupSetBits`: the bits of the mask are switched on. -/
def xEventGroupSetBits (gEvent mask : EventBits) : EventBits := gEvent ||| mask

/-- FreeRTOS `xEventGroupClearBits`: the bits of the mask are switched off. -/
def xEventGroupClearBits (gEvent mask : EventBits) : EventBits := gEvent ^^^ (gEvent &&& mask)

/-- The C++ condition `bits & mask` read as a `bool`. -/
def hasBits (bits mask : EventBits) : Bool := (bits &&& mask) != 0

/-- The flag `CrossingRequested` of the specification. -/
def CrossingRequested (bits : EventBits) : Bool := hasBits bits EVT_CROSS_REQ

/-- The flag `CrossingActive` of the specification. -/
def CrossingActive (bits : EventBits) : Bool := hasBits bits EVT_CROSS_ACTIVE

/-- The flag `IllegalDetected` of the specification. -/
def IllegalDetected (bits : EventBits) : Bool := hasBits bits EVT_ILLEGAL

/-- Arduino pin level `HIGH`, as a C++ `bool`. -/
def HIGH : Bool := true

/-- Arduino pin level `LOW`, as a C++ `bool`. -/
def LOW : Bool := false

/-! ## The button task -/

/-- Local variables of `TaskButton`. -/
structure ButtonVars where
  lastStable : Bool
  lastRead : Bool
  lastChangeMs : Nat
  deriving DecidableEq

/-- Values of the locals of `TaskButton` before the first pass (lines 104-106). -/
def ButtonVars.init : ButtonVars := { lastStable := HIGH, lastRead := HIGH, lastChangeMs := 0 }

/-- What one pass of `TaskButton` gets from outside: the pin reading of line 109,
the clock reading of line 113 (taken only when the reading changed) and the clock
reading of line 116. -/
structure ButtonIn where
  r : Bool
  tChange : Nat
  tCheck : Nat
  deriving DecidableEq

/-- The branch a pass of `TaskButton` took, named after its serial message. -/
inductive ButtonLog where
  | ignoredCrossing
  | ignoredIllegal
  | pressReq
  deriving DecidableEq

/-- Result of one pass of `TaskButton`. -/
structure ButtonOut where
  vars : ButtonVars
  gEvent : EventBits
  log : Option ButtonLog
  deriving DecidableEq

namespace Dual

/-- One pass of the loop of `TaskButton`, dual-sensor program (lines 109-133). -/
def TaskButton (s : ButtonVars) (i : ButtonIn) (gEvent : EventBits) : ButtonOut :=
  let r := i.r
  let lastRead := if r != s.lastRead then r else s.lastRead
  let lastChangeMs := if r != s.lastRead then u32 i.tChange else s.lastChangeMs
  if decide (sub32 i.tCheck lastChangeMs > 50) && (r != s.lastStable) then
    let lastStable := r
    let vars : ButtonVars := { lastStable := lastStable, lastRead := lastRead, lastChangeMs := lastChangeMs }
    if lastStable == LOW then
      let bits := gEvent
      if hasBits bits EVT_CROSS_ACTIVE then
        { vars := vars, gEvent := gEvent, log := some ButtonLog.ignoredCrossing }
      else if hasBits bits EVT_ILLEGAL then
        { vars := vars, gEvent := gEvent, log := some ButtonLog.ignoredIllegal }
      else
        { vars := vars, gEvent := xEventGroupSetBits gEvent EVT_CROSS_REQ, log := some ButtonLog.pressReq }
    else
      { vars := vars, gEvent := gEvent, log := none }
  else
    { vars := { lastStable := s.lastStable, lastRead := lastRead, lastChangeMs := lastChangeMs },
      gEvent := gEvent, log := none }

end Dual

namespace Single

/-- One pass of the loop of `TaskButton`, single-sensor program (lines 437-465). -/
def TaskButton (s : ButtonVars) (i : ButtonIn) (gEvent : EventBits) : ButtonOut :=
  let r := i.r
  let lastRead := if r != s.lastRead then r else s.lastRead
  let lastChangeMs := if r != s.lastRead then u32 i.tChange else s.lastChangeMs
  if decide (sub32 i.tCheck lastChangeMs > 50) && (r != s.lastStable) then
    let lastStable := r
    let vars : ButtonVars := { lastStable := lastStable, lastRead := lastRead, lastChangeMs := lastChangeMs }
    if lastStable == LOW then
      let bits := gEvent
      if hasBits bits EVT_ILLEGAL then
        { vars := vars, gEvent := gEvent, log := some ButtonLog.ignoredIllegal }
      else if hasBits bits EVT_CROSS_ACTIVE then
        { vars := vars, gEvent := gEvent, log := some ButtonLog.ignoredCrossing }
      else
        { vars := vars, gEvent := xEventGroupSetBits gEvent EVT_CROSS_REQ, log := some ButtonLog.pressReq }
    else
      { vars := vars, gEvent := gEvent, log := none }
  else
    { vars := { lastStable := s.lastStable, lastRead := lastRead, lastChangeMs := lastChangeMs },
      gEvent := gEvent, log := none }

end Single

/-- The passes of `TaskButton` over a trace: `buttonRun s0 tr ev n` holds the locals
after the first `n` passes, pass `k` getting `tr k` from its pin and clock and
finding the event bits `ev k`. -/
def buttonRun (s0 : ButtonVars) (tr : Nat → ButtonIn) (ev : Nat → EventBits) : Nat → ButtonVars
  | 0 => s0
  | n + 1 => (Dual.TaskButton (buttonRun s0 tr ev n) (tr n) (ev n)).vars

/-- Result of pass number `n` of `TaskButton` over a trace. -/
def buttonOut (s0 : ButtonVars) (tr : Nat → ButtonIn) (ev : Nat → EventBits) (n : Nat) : ButtonOut :=
  Dual.TaskButton (buttonRun s0 tr ev n) (tr n) (ev n)

/-- Pass `n` of the trace reaches `xEventGroupSetBits(gEvent, EVT_CROSS_REQ)`. -/
def setsRequest (s0 : ButtonVars) (tr : Nat → ButtonIn) (ev : Nat → EventBits) (n : Nat) : Bool :=
  (buttonOut s0 tr ev n).log == some ButtonLog.pressReq

/-- Pass `n` of the trace changes the stable reading to released (`HIGH`). -/
def releasedAt (s0 : ButtonVars) (tr : Nat → ButtonIn) (ev : Nat → EventBits) (n : Nat) : Bool :=
  (buttonRun s0 tr ev n).lastStable == LOW && (buttonOut s0 tr ev n).vars.lastStable == HIGH

/-- The reading the pass before pass `n` made; before the first pass it is the
initial value of `lastRead`. -/
def prevReading (s0 : ButtonVars) (tr : Nat → ButtonIn) : Nat → Bool
  | 0 => s0.lastRead
  | n + 1 => (tr n).r

/-- The button is read every 10 ms from time `t` on and is down at every reading. -/
def heldFrom (t : Nat) (k : Nat) : ButtonIn :=
  { r := LOW, tChange := t + 10 * k, tCheck := t + 10 * k }

/-- The button is read every 10 ms from time `t` on; it is down at the first `m`
readings and up from then on. -/
def pressedFor (m t : Nat) (k : Nat) : ButtonIn :=
  { r := if k < m then LOW else HIGH, tChange := t + 10 * k, tCheck := t + 10 * k }

/-! ## Timing constants -/

def GREEN_CROSS_MS : Nat := 10000
def PIR_CONFIRM_MS : Nat := 200
def BOTH_WINDOW_MS : Nat := 800
def ILLEGAL_RUN_MS : Nat := 3000
def ILLEGAL_WAIT_MS : Nat := 5000
def BEEP_ON_MS : Nat := 120
def BEEP_OFF_MS : Nat := 180

/-! ## The motion task -/

/-- The cast `(int32_t)x` of a `uint32_t`. -/
def toInt32 (x : Nat) : Int :=
  if x % 4294967296 < 2147483648 then (x % 4294967296 : Nat) else ((x % 4294967296 : Nat) : Int) - 4294967296

/-- A signed result brought back into the range of `int32_t` (two's complement, as
the target does on overflow). -/
def wrapInt32 (z : Int) : Int := toInt32 (z % 4294967296).toNat

/-- The expression `(uint32_t)abs((int32_t)a - (int32_t)b)` of line 172. -/
def absDiff32 (a b : Nat) : Nat := u32 (wrapInt32 (toInt32 a - toInt32 b)).natAbs

/-- Local variables of the dual-sensor `TaskPIR`: the time each sensor was last
confirmed, `0` standing for never. -/
structure PirVars where
  tPir1 : Nat
  tPir2 : Nat
  deriving DecidableEq

/-- Values of the locals of the dual-sensor `TaskPIR` before the first pass. -/
def PirVars.init : PirVars := { tPir1 := 0, tPir2 := 0 }

/-- What one pass of the dual-sensor `TaskPIR` gets from outside: the clock reading
of line 146 and what the two calls of `confirmHigh` (lines 165-166) return. -/
structure PirIn where
  now : Nat
  m1 : Bool
  m2 : Bool
  deriving DecidableEq

/-- Result of one pass of the dual-sensor `TaskPIR`. -/
structure PirOut where
  vars : PirVars
  gEvent : EventBits
  deriving DecidableEq

namespace Dual

/-- The condition `both` of lines 171-172. -/
def both (tPir1 tPir2 : Nat) : Bool :=
  decide (tPir1 > 0) && decide (tPir2 > 0) && decide (absDiff32 tPir1 tPir2 ≤ BOTH_WINDOW_MS)

/-- The conditions `stale1`, `stale2` of lines 178-179. -/
def stale (now tPir : Nat) : Bool :=
  (tPir == 0) || decide (sub32 now tPir > BOTH_WINDOW_MS)

/-- The tests of lines 150 and 158 under which a pass of `TaskPIR` skips detection. -/
def suppressed (i : PirIn) (gEvent : EventBits) (gIllegalIgnoreUntil : Nat) : Bool :=
  hasBits gEvent EVT_CROSS_ACTIVE || decide (u32 i.now < gIllegalIgnoreUntil)

/-- One pass of the loop of `TaskPIR`, dual-sensor program (lines 146-187), with no
write of another task between its tests and its decision; `Sys.beginPIR` and
`Sys.finishPIR` give the two halves apart. -/
def TaskPIR (s : PirVars) (i : PirIn) (gEvent : EventBits) (gIllegalIgnoreUntil : Nat) : PirOut :=
  let now := u32 i.now
  let bits := gEvent
  if hasBits bits EVT_CROSS_ACTIVE then
    { vars := { tPir1 := 0, tPir2 := 0 }, gEvent := xEventGroupClearBits gEvent EVT_ILLEGAL }
  else if now < gIllegalIgnoreUntil then
    { vars := { tPir1 := 0, tPir2 := 0 }, gEvent := xEventGroupClearBits gEvent EVT_ILLEGAL }
  else
    let tPir1 := if i.m1 then now else s.tPir1
    let tPir2 := if i.m2 then now else s.tPir2
    if both tPir1 tPir2 then
      { vars := { tPir1 := tPir1, tPir2 := tPir2 }, gEvent := xEventGroupSetBits gEvent EVT_ILLEGAL }
    else
      let stale1 := stale now tPir1
      let stale2 := stale now tPir2
      if stale1 && stale2 then
        { vars := { tPir1 := 0, tPir2 := 0 }, gEvent := xEventGroupClearBits gEvent EVT_ILLEGAL }
      else
        { vars := { tPir1 := tPir1, tPir2 := tPir2 }, gEvent := gEvent }

/-- The passes of `TaskPIR` over a trace: `pirRun s0 tr ev ign n` holds the locals
after the first `n` passes, pass `k` getting `tr k` and finding the event bits
`ev k` and the value `ign k` of `gIllegalIgnoreUntil`. -/
def pirRun (s0 : PirVars) (tr : Nat → PirIn) (ev : Nat → EventBits) (ign : Nat → Nat) : Nat → PirVars
  | 0 => s0
  | n + 1 => (TaskPIR (pirRun s0 tr ev ign n) (tr n) (ev n) (ign n)).vars

/-- Result of pass number `n` of `TaskPIR` over a trace. -/
def pirOut (s0 : PirVars) (tr : Nat → PirIn) (ev : Nat → EventBits) (ign : Nat → Nat) (n : Nat) : PirOut :=
  TaskPIR (pirRun s0 tr ev ign n) (tr n) (ev n) (ign n)

end Dual

namespace Single

/-- One pass of the loop of `TaskPIR`, single-sensor program (lines 474-483);
`motion` is what `confirmHigh(PIR_PIN, PIR_CONFIRM_MS)` returns. -/
def TaskPIR (motion : Bool) (gEvent : EventBits) : EventBits :=
  if motion then xEventGroupSetBits gEvent EVT_ILLEGAL
  else xEventGroupClearBits gEvent EVT_ILLEGAL

end Single

/-! ## The traffic task -/

/-- States of the controller (`enum TrafficState`). -/
inductive TrafficState where
  | ST_RED_IDLE
  | ST_GREEN_CROSS
  | ST_ILLEGAL
  deriving DecidableEq

/-- Levels last written to the pins `CAR_R`, `CAR_Y`, `CAR_G` by `setCar`. -/
structure Lights where
  r : Bool
  y : Bool
  g : Bool
  deriving DecidableEq

/-- The helper `setCar` (lines 60-64). -/
def setCar (r y g : Bool) : Lights := { r := r, y := y, g := g }

/-- Local variables of `TaskTraffic` (`st` is a file-level variable in the
single-sensor program) together with the output pins the task drives. -/
structure TrafficVars where
  st : TrafficState
  crossStart : Nat
  car : Lights
  buzzer : Bool
  deriving DecidableEq

/-- State of `TaskTraffic` when its loop is entered: lines 198-202 and the
`digitalWrite(BUZZER_PIN, LOW)` of `setup`. -/
def TrafficVars.init : TrafficVars :=
  { st := TrafficState.ST_RED_IDLE, crossStart := 0, car := setCar true false false, buzzer := LOW }

/-- Clock readings one pass of `TaskTraffic` takes: `t0` at line 220, `loopClk k` at
the `k`-th evaluation of the loop test of line 221 (counted from 0), `tEnd` at
line 242, `tCross` at line 258 (551) and `tElapsed` at line 281 (568). -/
structure TrafficIn where
  t0 : Nat
  loopClk : Nat → Nat
  tEnd : Nat
  tCross : Nat
  tElapsed : Nat

/-- Result of one pass of `TaskTraffic`; `beeps` counts the calls of `beepOnce`. -/
structure TrafficOut where
  vars : TrafficVars
  gEvent : EventBits
  gIllegalIgnoreUntil : Nat
  beeps : Nat
  deriving DecidableEq

/-- The passes of the normal states, lines 249-305 (541-593): the `switch (st)`. -/
def normalStates (s : TrafficVars) (i : TrafficIn) (gEvent : EventBits)
    (gIllegalIgnoreUntil : Nat) : TrafficOut :=
  let bits := gEvent
  match s.st with
  | TrafficState.ST_RED_IDLE =>
    if hasBits bits EVT_CROSS_REQ then
      { vars := { st := TrafficState.ST_GREEN_CROSS, crossStart := u32 i.tCross,
                  car := setCar true false false, buzzer := s.buzzer },
        gEvent := xEventGroupSetBits (xEventGroupClearBits gEvent EVT_CROSS_REQ) EVT_CROSS_ACTIVE,
        gIllegalIgnoreUntil := gIllegalIgnoreUntil, beeps := 0 }
    else
      { vars := { st := TrafficState.ST_RED_IDLE, crossStart := s.crossStart,
                  car := setCar true false false, buzzer := s.buzzer },
        gEvent := gEvent, gIllegalIgnoreUntil := gIllegalIgnoreUntil, beeps := 0 }
  | TrafficState.ST_GREEN_CROSS =>
    let elapsed := sub32 i.tElapsed s.crossStart
    if elapsed ≥ GREEN_CROSS_MS then
      { vars := { st := TrafficState.ST_RED_IDLE, crossStart := s.crossStart,
                  car := setCar true false false, buzzer := s.buzzer },
        gEvent := xEventGroupClearBits gEvent EVT_CROSS_ACTIVE,
        gIllegalIgnoreUntil := gIllegalIgnoreUntil, beeps := 0 }
    else
      { vars := { st := TrafficState.ST_GREEN_CROSS, crossStart := s.crossStart,
                  car := setCar false false true, buzzer := s.buzzer },
        gEvent := gEvent, gIllegalIgnoreUntil := gIllegalIgnoreUntil, beeps := 0 }
  | TrafficState.ST_ILLEGAL =>
    { vars := s, gEvent := gEvent, gIllegalIgnoreUntil := gIllegalIgnoreUntil, beeps := 0 }

namespace Dual

/-- The alert loop of lines 221-230: `alertLoop t0 clk fuel k` runs the loop from
its `k`-th test on and gives the number of passes made (each one call of
`beepOnce`) when the loop is left, or `none` when `fuel` tests did not leave it. -/
def alertLoop (t0 : Nat) (clk : Nat → Nat) : Nat → Nat → Option Nat
  | 0, _ => none
  | fuel + 1, k =>
    if sub32 (clk k) t0 < ILLEGAL_RUN_MS then alertLoop t0 clk fuel (k + 1) else some k

/-- One pass of the loop of `TaskTraffic`, dual-sensor program (lines 206-307), with
no write of another task while the alert runs (`FineSys.stepTraffic` gives the
alert step by step); `none` when the alert loop is not left within `fuel` tests. -/
def TaskTraffic (fuel : Nat) (s : TrafficVars) (i : TrafficIn) (gEvent : EventBits)
    (gIllegalIgnoreUntil : Nat) : Option TrafficOut :=
  let bits := gEvent
  let illegal := hasBits bits EVT_ILLEGAL
  if illegal && !(hasBits bits EVT_CROSS_ACTIVE) && (s.st != TrafficState.ST_GREEN_CROSS) then
    let g1 := xEventGroupClearBits gEvent EVT_CROSS_REQ
    let t0 := u32 i.t0
    match alertLoop t0 i.loopClk fuel 0 with
    | none => none
    | some n =>
      let g2 := xEventGroupClearBits g1 EVT_ILLEGAL
      some { vars := { st := TrafficState.ST_RED_IDLE, crossStart := s.crossStart,
                       car := setCar true false false, buzzer := LOW },
             gEvent := g2,
             gIllegalIgnoreUntil := add32 i.tEnd ILLEGAL_WAIT_MS,
             beeps := n }
  else
    some (normalStates s i gEvent gIllegalIgnoreUntil)

end Dual

namespace Single

/-- One pass of the loop of `TaskTraffic`, single-sensor program (lines 502-595).
The program has no `gIllegalIgnoreUntil`; the field of the result is `0`. -/
def TaskTraffic (s : TrafficVars) (i : TrafficIn) (gEvent : EventBits) : TrafficOut :=
  let bits := gEvent
  let illegal := hasBits bits EVT_ILLEGAL
  if illegal then
    let g := if s.st != TrafficState.ST_ILLEGAL then
        xEventGroupClearBits (xEventGroupClearBits gEvent EVT_CROSS_ACTIVE) EVT_CROSS_REQ
      else gEvent
    { vars := { st := TrafficState.ST_ILLEGAL, crossStart := s.crossStart,
                car := setCar false true false, buzzer := LOW },
      gEvent := g, gIllegalIgnoreUntil := 0, beeps := 1 }
  else if s.st == TrafficState.ST_ILLEGAL && !illegal then
    { vars := { st := TrafficState.ST_RED_IDLE, crossStart := s.crossStart,
                car := setCar true false false, buzzer := s.buzzer },
      gEvent := gEvent, gIllegalIgnoreUntil := 0, beeps := 0 }
  else
    normalStates s i gEvent 0

end Single

/-! ## The three tasks together -/

namespace Dual

/-- The dual-sensor program between two passes: the shared objects and the state
of each task. -/
structure Sys where
  gEvent : EventBits
  gIllegalIgnoreUntil : Nat
  button : ButtonVars
  pir : PirVars
  traffic : TrafficVars
  deriving DecidableEq

/-- The dual-sensor program when the tasks start. -/
def Sys.init : Sys :=
  { gEvent := 0, gIllegalIgnoreUntil := 0, button := ButtonVars.init, pir := PirVars.init,
    traffic := TrafficVars.init }

/-- The button task makes one pass. -/
def Sys.stepButton (s : Sys) (i : ButtonIn) : Sys :=
  let o := TaskButton s.button i s.gEvent
  { s with gEvent := o.gEvent, button := o.vars }

/-- The motion task makes one pass. -/
def Sys.stepPIR (s : Sys) (i : PirIn) : Sys :=
  let o := TaskPIR s.pir i s.gEvent s.gIllegalIgnoreUntil
  { s with gEvent := o.gEvent, pir := o.vars }

/-- The traffic task makes one pass. -/
def Sys.stepTraffic (fuel : Nat) (s : Sys) (i : TrafficIn) : Option Sys :=
  (TaskTraffic fuel s.traffic i s.gEvent s.gIllegalIgnoreUntil).map fun o =>
    { s with gEvent := o.gEvent, gIllegalIgnoreUntil := o.gIllegalIgnoreUntil, traffic := o.vars }

/-- States the dual-sensor program can be in between passes of its tasks. -/
inductive Reachable : Sys → Prop where
  | init : Reachable Sys.init
  | button (s : Sys) (i : ButtonIn) : Reachable s → Reachable (s.stepButton i)
  | pir (s : Sys) (i : PirIn) : Reachable s → Reachable (s.stepPIR i)
  | traffic (s s1 : Sys) (fuel : Nat) (i : TrafficIn) :
      Reachable s → s.stepTraffic fuel i = some s1 → Reachable s1

end Dual

namespace Single

/-- The single-sensor program between two passes. -/
structure Sys where
  gEvent : EventBits
  button : ButtonVars
  traffic : TrafficVars
  deriving DecidableEq

/-- The single-sensor program when the tasks start. -/
def Sys.init : Sys :=
  { gEvent := 0, button := ButtonVars.init, traffic := TrafficVars.init }

/-- The button task makes one pass. -/
def Sys.stepButton (s : Sys) (i : ButtonIn) : Sys :=
  let o := TaskButton s.button i s.gEvent
  { s with gEvent := o.gEvent, button := o.vars }

/-- The motion task makes one pass. -/
def Sys.stepPIR (s : Sys) (motion : Bool) : Sys :=
  { s with gEvent := TaskPIR motion s.gEvent }

/-- The traffic task makes one pass. -/
def Sys.stepTraffic (s : Sys) (i : TrafficIn) : Sys :=
  let o := TaskTraffic s.traffic i s.gEvent
  { s with gEvent := o.gEvent, traffic := o.vars }

/-- States the single-sensor program can be in between passes of its tasks. -/
inductive Reachable : Sys → Prop where
  | init : Reachable Sys.init
  | button (s : Sys) (i : ButtonIn) : Reachable s → Reachable (s.stepButton i)
  | pir (s : Sys) (motion : Bool) : Reachable s → Reachable (s.stepPIR motion)
  | traffic (s : Sys) (i : TrafficIn) : Reachable s → Reachable (s.stepTraffic i)

end Single

/-! ## Sample runs and the invariant of the controller -/

/-- Readings 100 ms apart: two down, two up, two down, and so on. -/
def twoPresses (k : Nat) : ButtonIn :=
  { r := decide ((k / 2) % 2 = 1), tChange := 100 * k, tCheck := 100 * k }

/-- The first three passes of the motion task in the run that refutes C6: sensor 2
confirms at time 100, sensor 1 at time 500 and again at time 1000. -/
def driftPasses : List PirIn :=
  [{ now := 100, m1 := false, m2 := true }, { now := 500, m1 := true, m2 := false },
   { now := 1000, m1 := true, m2 := false }]

/-- Sensor 1 is confirmed at every pass, 80 ms apart; sensor 2 never. -/
def sensorOneOnly (k : Nat) : PirIn := { now := 1000 + 80 * k, m1 := true, m2 := false }

/-- The clock of an alert started at time 500 whose passes take 300 ms each. -/
def alertClock : TrafficIn :=
  { t0 := 500, loopClk := fun k => 500 + 300 * k, tEnd := 3500, tCross := 0, tElapsed := 0 }

/-- The flag `CrossingActive` is set exactly in state `ST_GREEN_CROSS`. -/
def ActiveIffGreen (gEvent : EventBits) (st : TrafficState) : Prop :=
  CrossingActive gEvent = true ↔ st = TrafficState.ST_GREEN_CROSS

/-- Clock readings of a pass of `TaskTraffic` taken at time `t` outside an alert. -/
def trafficAt (t : Nat) : TrafficIn :=
  { t0 := t, loopClk := fun _ => t, tEnd := t, tCross := t, tElapsed := t }

/-- The dual-sensor program after a debounced press (button passes at times 100 and
200) and the traffic pass at time 210 that starts the crossing. -/
def Dual.crossingStarted : Option Dual.Sys :=
  ((Dual.Sys.init.stepButton ⟨LOW, 100, 100⟩).stepButton ⟨LOW, 200, 200⟩).stepTraffic 0 (trafficAt 210)

/-- The single-sensor program after a debounced press, the traffic pass that
starts the crossing, a confirmed motion, and the traffic pass that sees it. -/
def Single.crossingCancelled : Single.Sys :=
  (((((Single.Sys.init.stepButton ⟨LOW, 100, 100⟩).stepButton ⟨LOW, 200, 200⟩).stepTraffic
    (trafficAt 210)).stepPIR true).stepTraffic (trafficAt 230))

/-! ## The helper `confirmHigh` -/

/-- What one call of `confirmHigh` gets from outside: `pin j` is the `j`-th reading
of the pin the call makes and `clk j` the `j`-th reading of the clock, both
counted from 0. -/
structure ConfirmIn where
  pin : Nat → Bool
  clk : Nat → Nat

/-- Result of one call of `confirmHigh`: the value returned and the number of
readings of the pin and of the clock the call made. -/
structure ConfirmOut where
  result : Bool
  pinReads : Nat
  clkReads : Nat
  deriving DecidableEq

/-- The loop of `confirmHigh` (lines 92-94) from its `k`-th test on, followed by the
`return` of line 95. Test `k` reads the pin for the `(k + 1)`-th time and, only
when the pin is `HIGH`, the clock for the `(k + 1)`-th time; `none` when `fuel`
tests did not leave the loop. -/
def confirmLoop (e : ConfirmIn) (t0 confirmMs : Nat) : Nat → Nat → Option ConfirmOut
  | 0, _ => none
  | fuel + 1, k =>
    if e.pin (k + 1) == HIGH then
      if sub32 (e.clk (k + 1)) t0 < confirmMs then confirmLoop e t0 confirmMs fuel (k + 1)
      else some { result := decide (sub32 (e.clk (k + 2)) t0 ≥ confirmMs),
                  pinReads := k + 2, clkReads := k + 3 }
    else some { result := decide (sub32 (e.clk (k + 1)) t0 ≥ confirmMs),
                pinReads := k + 2, clkReads := k + 2 }

/-- The helper `confirmHigh(pin, confirmMs)` (lines 89-96). -/
def confirmHigh (e : ConfirmIn) (confirmMs : Nat) (fuel : Nat) : Option ConfirmOut :=
  if e.pin 0 == LOW then some { result := false, pinReads := 1, clkReads := 0 }
  else
    let t0 := u32 (e.clk 0)
    confirmLoop e t0 confirmMs fuel 0

/-! ## The dual-sensor program with an alert that other tasks can interleave -/

namespace Dual

/-- Where `TaskTraffic` stands between two of its steps: at the top of its loop
(line 206), or inside the alert loop before its `k`-th test (line 221) with the
start time `t0` of line 220. While the task sleeps in `beepOnce` the other two
tasks run. -/
inductive Phase where
  | top
  | alert (t0 : Nat) (k : Nat)
  deriving DecidableEq

/-- The dual-sensor program between two steps of its tasks. -/
structure FineSys where
  sys : Sys
  phase : Phase
  deriving DecidableEq

/-- The dual-sensor program when the tasks start. -/
def FineSys.init : FineSys := { sys := Sys.init, phase := Phase.top }

/-- Lines 212-220: the alert begins; the state becomes `ST_ILLEGAL`, a pending
request is cleared and the start time is taken. -/
def alertBegin (s : Sys) (i : TrafficIn) : FineSys :=
  { sys := { s with gEvent := xEventGroupClearBits s.gEvent EVT_CROSS_REQ,
                    traffic := { s.traffic with st := TrafficState.ST_ILLEGAL } },
    phase := Phase.alert (u32 i.t0) 0 }

/-- Lines 222-229: one pass of the alert loop; the lights go to yellow and
`beepOnce` leaves the buzzer off. -/
def alertBeep (s : Sys) (t0 k : Nat) : FineSys :=
  { sys := { s with traffic := { s.traffic with car := setCar false true false, buzzer := LOW } },
    phase := Phase.alert t0 (k + 1) }

/-- Lines 233-244: the alert ends. -/
def alertEnd (s : Sys) (i : TrafficIn) : FineSys :=
  { sys := { s with gEvent := xEventGroupClearBits s.gEvent EVT_ILLEGAL,
                    gIllegalIgnoreUntil := add32 i.tEnd ILLEGAL_WAIT_MS,
                    traffic := { st := TrafficState.ST_RED_IDLE, crossStart := s.traffic.crossStart,
                                 car := setCar true false false, buzzer := LOW } },
    phase := Phase.top }

/-- The traffic task runs until it next sleeps: a whole pass outside the alert, or
the beginning, one loop pass or the end of the alert. -/
def FineSys.stepTraffic (s : FineSys) (i : TrafficIn) : FineSys :=
  match s.phase with
  | Phase.top =>
    let bits := s.sys.gEvent
    let illegal := hasBits bits EVT_ILLEGAL
    if illegal && !(hasBits bits EVT_CROSS_ACTIVE) &&
        (s.sys.traffic.st != TrafficState.ST_GREEN_CROSS) then
      alertBegin s.sys i
    else
      let o := normalStates s.sys.traffic i s.sys.gEvent s.sys.gIllegalIgnoreUntil
      { sys := { s.sys with gEvent := o.gEvent, gIllegalIgnoreUntil := o.gIllegalIgnoreUntil,
                            traffic := o.vars },
        phase := Phase.top }
  | Phase.alert t0 k =>
    if sub32 (i.loopClk k) t0 < ILLEGAL_RUN_MS then alertBeep s.sys t0 k else alertEnd s.sys i

/-- A step of one of the three tasks. -/
inductive Event where
  | button (i : ButtonIn)
  | pir (i : PirIn)
  | traffic (i : TrafficIn)

/-- The program makes the step of one task. -/
def FineSys.step (s : FineSys) : Event → FineSys
  | Event.button i => { s with sys := s.sys.stepButton i }
  | Event.pir i => { s with sys := s.sys.stepPIR i }
  | Event.traffic i => s.stepTraffic i

/-- The program makes the steps of a list, from the start of the tasks. -/
def fineRun (es : List Event) : FineSys := es.foldl FineSys.step FineSys.init

/-- The controller is running an alert. -/
def FineSys.inAlert (s : FineSys) : Bool :=
  match s.phase with
  | Phase.top => false
  | Phase.alert _ _ => true

end Dual

/-! ## Sample inputs of the later claims -/

/-- The clock of an alert started at time `t` in which every call of
`beepOnce(BEEP_ON_MS, BEEP_OFF_MS)` takes `BEEP_ON_MS + BEEP_OFF_MS` and nothing
else takes time: test `k` of the loop reads `t + 300 * k`. -/
def beepClock (t : Nat) (k : Nat) : Nat := t + (BEEP_ON_MS + BEEP_OFF_MS) * k

/-- A sensor read `HIGH` at the first reading and at the loop tests 0 to 9, taken
20 ms apart from time 1000 on, and `LOW` at loop test 10, 200 ms after the start. -/
def dropAtEnd : ConfirmIn :=
  { pin := fun j => decide (j ≤ 10), clk := fun j => 1000 + 20 * (j - 1) }

/-- A sensor read `HIGH` throughout, the clock read every 20 ms from time 1000 on. -/
def steadyHigh : ConfirmIn :=
  { pin := fun _ => HIGH, clk := fun j => 1000 + 20 * (j - 1) }

/-- Clock readings of the alert of `requestInAlert`: begun at time 1410, every pass
of its loop taking 300 ms, ended at time 4410. -/
def alertAt1410 : TrafficIn :=
  { t0 := 1410, loopClk := beepClock 1410, tEnd := 4410, tCross := 4410, tElapsed := 4410 }

/-- The run of the dual-sensor program that sets a request inside an alert, in the
order of time. The pass of the motion task begun at time 1000 confirms both
sensors; the alert begins at 1410 and its loop is tested at 1410, 1710 and 2010;
the pass of the motion task begun at 1880 confirms sensor 1 alone; the loop is
tested at 2310 and 2610; the pass of the motion task at 2720 finds both
timestamps stale; the button, down from 2730 on, is debounced at 2790. -/
def requestInAlert : List Dual.Event :=
  [Dual.Event.pir { now := 1000, m1 := true, m2 := true },
   Dual.Event.traffic alertAt1410, Dual.Event.traffic alertAt1410,
   Dual.Event.traffic alertAt1410, Dual.Event.traffic alertAt1410,
   Dual.Event.pir { now := 1880, m1 := true, m2 := false },
   Dual.Event.traffic alertAt1410, Dual.Event.traffic alertAt1410,
   Dual.Event.pir { now := 2720, m1 := false, m2 := false },
   Dual.Event.button { r := LOW, tChange := 2730, tCheck := 2730 },
   Dual.Event.button { r := LOW, tChange := 2790, tCheck := 2790 }]

/-- The rest of the alert of `requestInAlert`: the loop tests at 2910, 3210, 3510,
3810 and 4110 and the test at 4410 that ends the alert. -/
def restOfAlert : List Dual.Event := List.replicate 6 (Dual.Event.traffic alertAt1410)

/-- Clock readings of an alert begun at time `2 ^ 32 - 4000`, every pass of its loop
taking 300 ms, ended at time `2 ^ 32 - 1000`. -/
def alertBeforeWrap : TrafficIn :=
  { t0 := 4294963296, loopClk := beepClock 4294963296, tEnd := 4294966296, tCross := 0,
    tElapsed := 0 }

/-- The single-sensor program in an alert with a request pending, in the order of
time: the motion task confirms motion; the traffic pass at time 1000 enters
`ST_ILLEGAL` and sleeps in `beepOnce`; the pass of the motion task at 1005 reads
no motion and clears the flag; the button, down from 1010 on, is debounced at
1070; the pass of the motion task begun at 1205 confirms motion again. -/
def Single.requestDuringAlert : Single.Sys :=
  ((((((Single.Sys.init.stepPIR true).stepTraffic (trafficAt 1000)).stepPIR false).stepButton
    ⟨LOW, 1010, 1010⟩).stepButton ⟨LOW, 1070, 1070⟩).stepPIR true)

/-! ## The pass of the dual-sensor motion task, split at its sleep -/

namespace Dual

/-- Lines 168-185 of `TaskPIR`: what a pass does once the two calls of `confirmHigh`
have returned `m1` and `m2`; `now` is the clock the pass read at line 146, before
the calls, and `gEvent` holds the event bits as they are after them. -/
def pirDecide (s : PirVars) (now : Nat) (m1 m2 : Bool) (gEvent : EventBits) : PirOut :=
  let tPir1 := if m1 then now else s.tPir1
  let tPir2 := if m2 then now else s.tPir2
  if both tPir1 tPir2 then
    { vars := { tPir1 := tPir1, tPir2 := tPir2 }, gEvent := xEventGroupSetBits gEvent EVT_ILLEGAL }
  else
    let stale1 := stale now tPir1
    let stale2 := stale now tPir2
    if stale1 && stale2 then
      { vars := { tPir1 := 0, tPir2 := 0 }, gEvent := xEventGroupClearBits gEvent EVT_ILLEGAL }
    else
      { vars := { tPir1 := tPir1, tPir2 := tPir2 }, gEvent := gEvent }

/-- Lines 146-163 of `TaskPIR`: the pass reads the clock and the event bits and
makes its two tests. A suppressed pass clears the flag and the timestamps and is
over (`none`); any other pass goes on to `confirmHigh`, where it sleeps, keeping
the clock it read (`some now`). -/
def Sys.beginPIR (s : Sys) (clock : Nat) : Sys × Option Nat :=
  let now := u32 clock
  let bits := s.gEvent
  if hasBits bits EVT_CROSS_ACTIVE then
    ({ s with gEvent := xEventGroupClearBits s.gEvent EVT_ILLEGAL, pir := { tPir1 := 0, tPir2 := 0 } },
      none)
  else if now < s.gIllegalIgnoreUntil then
    ({ s with gEvent := xEventGroupClearBits s.gEvent EVT_ILLEGAL, pir := { tPir1 := 0, tPir2 := 0 } },
      none)
  else (s, some now)

/-- A pass of the motion task that read the clock `now` at line 146 and has slept in
`confirmHigh` since comes out of the two calls with `m1` and `m2` and runs lines
168-185 on the event bits as they are by then. -/
def Sys.finishPIR (s : Sys) (now : Nat) (m1 m2 : Bool) : Sys :=
  let o := pirDecide s.pir now m1 m2 s.gEvent
  { s with gEvent := o.gEvent, pir := o.vars }

end Dual

/-- The dual-sensor program 2700 ms into an alert: the pass of the motion task
begun at time 1000 has confirmed both sensors, the alert has begun at 1410 and
its loop has been tested at 1410, 1710, ..., 4110. -/
def alertRunning : Dual.FineSys :=
  Dual.fineRun (Dual.Event.pir { now := 1000, m1 := true, m2 := true } ::
    List.replicate 11 (Dual.Event.traffic alertAt1410))

/-- The program of `alertRunning` after the loop test at time 4410, which ends the
alert. -/
def alertEnded : Dual.FineSys := alertRunning.stepTraffic alertAt1410

/-- The program of `alertEnded` after the pass of the motion task that read the
clock 4400 while the alert was running has come out of `confirmHigh` with both
sensors confirmed. -/
def passInFlightDone : Dual.FineSys :=
  { alertEnded with sys := alertEnded.sys.finishPIR 4400 true true }

/-! ## Facts about the event bits -/

theorem hasBits_req (b : EventBits) : hasBits b EVT_CROSS_REQ = b.testBit 0 := by
  have h := Nat.and_two_pow b 0
  simp only [hasBits, EVT_CROSS_REQ]
  cases hb : b.testBit 0 <;> simp_all

theorem hasBits_active (b : EventBits) : hasBits b EVT_CROSS_ACTIVE = b.testBit 1 := by
  have h := Nat.and_two_pow b 1
  simp only [hasBits, EVT_CROSS_ACTIVE]
  cases hb : b.testBit 1 <;> simp_all

theorem hasBits_illegal (b : EventBits) : hasBits b EVT_ILLEGAL = b.testBit 2 := by
  have h := Nat.and_two_pow b 2
  simp only [hasBits, EVT_ILLEGAL]
  cases hb : b.testBit 2 <;> simp_all

theorem testBit_setBits (b m k : Nat) :
    (xEventGroupSetBits b m).testBit k = (b.testBit k || m.testBit k) := by
  simp [xEventGroupSetBits, Nat.testBit_lor]

theorem testBit_clearBits (b m k : Nat) :
    (xEventGroupClearBits b m).testBit k = (b.testBit k && !m.testBit k) := by
  simp only [xEventGroupClearBits, Nat.testBit_xor, Nat.testBit_land]
  cases b.testBit k <;> cases m.testBit k <;> rfl

theorem EVT_CROSS_REQ_eq : EVT_CROSS_REQ = 2 ^ 0 := rfl

theorem EVT_CROSS_ACTIVE_eq : EVT_CROSS_ACTIVE = 2 ^ 1 := rfl

theorem EVT_ILLEGAL_eq : EVT_ILLEGAL = 2 ^ 2 := rfl

theorem testBit_set_req (b : EventBits) (k : Nat) :
    (xEventGroupSetBits b EVT_CROSS_REQ).testBit k = (b.testBit k || decide (0 = k)) := by
  rw [testBit_setBits, EVT_CROSS_REQ_eq, Nat.testBit_two_pow]

theorem testBit_set_active (b : EventBits) (k : Nat) :
    (xEventGroupSetBits b EVT_CROSS_ACTIVE).testBit k = (b.testBit k || decide (1 = k)) := by
  rw [testBit_setBits, EVT_CROSS_ACTIVE_eq, Nat.testBit_two_pow]

theorem testBit_set_illegal (b : EventBits) (k : Nat) :
    (xEventGroupSetBits b EVT_ILLEGAL).testBit k = (b.testBit k || decide (2 = k)) := by
  rw [testBit_setBits, EVT_ILLEGAL_eq, Nat.testBit_two_pow]

theorem testBit_clear_req (b : EventBits) (k : Nat) :
    (xEventGroupClearBits b EVT_CROSS_REQ).testBit k = (b.testBit k && !decide (0 = k)) := by
  rw [testBit_clearBits, EVT_CROSS_REQ_eq, Nat.testBit_two_pow]

theorem testBit_clear_active (b : EventBits) (k : Nat) :
    (xEventGroupClearBits b EVT_CROSS_ACTIVE).testBit k = (b.testBit k && !decide (1 = k)) := by
  rw [testBit_clearBits, EVT_CROSS_ACTIVE_eq, Nat.testBit_two_pow]

theorem testBit_clear_illegal (b : EventBits) (k : Nat) :
    (xEventGroupClearBits b EVT_ILLEGAL).testBit k = (b.testBit k && !decide (2 = k)) := by
  rw [testBit_clearBits, EVT_ILLEGAL_eq, Nat.testBit_two_pow]

theorem crossingRequested_eq (b : EventBits) : CrossingRequested b = b.testBit 0 := hasBits_req b

theorem crossingActive_eq (b : EventBits) : CrossingActive b = b.testBit 1 := hasBits_active b

theorem illegalDetected_eq (b : EventBits) : IllegalDetected b = b.testBit 2 := hasBits_illegal b

/-! ## The button task: one pass -/

/-- The locals after a pass of `TaskButton` and its log do not depend on the order
of the two tests of the event bits, nor do the event bits it leaves. -/
theorem single_taskButton_eq (s : ButtonVars) (i : ButtonIn) (bits : EventBits) :
    (Single.TaskButton s i bits).vars = (Dual.TaskButton s i bits).vars ∧
    (Single.TaskButton s i bits).gEvent = (Dual.TaskButton s i bits).gEvent := by
  simp only [Single.TaskButton, Dual.TaskButton]
  split_ifs <;> simp

/-- What a pass of the dual-sensor `TaskButton` does when it changes the stable
reading from released to pressed. -/
theorem dual_taskButton_press (s : ButtonVars) (i : ButtonIn) (bits : EventBits)
    (hs : s.lastStable = HIGH) (hchg : (Dual.TaskButton s i bits).vars.lastStable = LOW) :
    (Dual.TaskButton s i bits).gEvent =
      if hasBits bits EVT_CROSS_ACTIVE || hasBits bits EVT_ILLEGAL then bits
      else xEventGroupSetBits bits EVT_CROSS_REQ := by
  simp only [Dual.TaskButton] at hchg ⊢
  split_ifs at hchg ⊢ <;> simp_all [HIGH, LOW]

/-- C1: at a pass of `TaskButton` (either program) that changes the stable reading
from released to pressed, the event bits stay as they were when `CrossingActive`
or `IllegalDetected` is set in them; otherwise `CrossingRequested` is set and the
two other flags keep their values. -/
theorem button_press_dropped_or_requested
    (T : ButtonVars → ButtonIn → EventBits → ButtonOut)
    (hT : T = Dual.TaskButton ∨ T = Single.TaskButton)
    (s : ButtonVars) (i : ButtonIn) (bits : EventBits)
    (hs : s.lastStable = HIGH) (hchg : (T s i bits).vars.lastStable = LOW) :
    ((CrossingActive bits = true ∨ IllegalDetected bits = true) → (T s i bits).gEvent = bits) ∧
    (CrossingActive bits = false → IllegalDetected bits = false →
      (T s i bits).gEvent = xEventGroupSetBits bits EVT_CROSS_REQ ∧
      CrossingRequested (T s i bits).gEvent = true ∧
      CrossingActive (T s i bits).gEvent = CrossingActive bits ∧
      IllegalDetected (T s i bits).gEvent = IllegalDetected bits) := by
  have hd : (T s i bits).gEvent =
      if hasBits bits EVT_CROSS_ACTIVE || hasBits bits EVT_ILLEGAL then bits
      else xEventGroupSetBits bits EVT_CROSS_REQ := by
    rcases hT with rfl | rfl
    · exact dual_taskButton_press s i bits hs hchg
    · rw [(single_taskButton_eq s i bits).1] at hchg
      rw [(single_taskButton_eq s i bits).2]
      exact dual_taskButton_press s i bits hs hchg
  rw [hd]
  constructor
  · unfold CrossingActive IllegalDetected
    rintro (h | h) <;> simp [h]
  · intro ha hi
    have hcond : (hasBits bits EVT_CROSS_ACTIVE || hasBits bits EVT_ILLEGAL) = false := by
      unfold CrossingActive at ha
      unfold IllegalDetected at hi
      rw [ha, hi]; rfl
    rw [hcond]
    refine ⟨rfl, ?_, ?_, ?_⟩
    · rw [if_neg (by decide), crossingRequested_eq, testBit_set_req]; simp
    · rw [if_neg (by decide), crossingActive_eq, crossingActive_eq, testBit_set_req]; simp
    · rw [if_neg (by decide), illegalDetected_eq, illegalDetected_eq, testBit_set_req]; simp

/-- C1, at an instance: a press confirmed at time 160 with no flag set (dual program)
and with `CrossingActive` set (single program). -/
theorem button_press_dropped_or_requested_witness :
    (Dual.TaskButton ⟨HIGH, LOW, 100⟩ ⟨LOW, 160, 160⟩ 0).gEvent = xEventGroupSetBits 0 EVT_CROSS_REQ ∧
    (Single.TaskButton ⟨HIGH, LOW, 100⟩ ⟨LOW, 160, 160⟩ EVT_CROSS_ACTIVE).gEvent = EVT_CROSS_ACTIVE :=
  ⟨((button_press_dropped_or_requested Dual.TaskButton (Or.inl rfl) ⟨HIGH, LOW, 100⟩ ⟨LOW, 160, 160⟩ 0
      rfl (by decide)).2 (by decide) (by decide)).1,
   (button_press_dropped_or_requested Single.TaskButton (Or.inr rfl) ⟨HIGH, LOW, 100⟩ ⟨LOW, 160, 160⟩
      EVT_CROSS_ACTIVE rfl (by decide)).1 (Or.inl (by decide))⟩

/-! ## The button task over a trace -/

theorem buttonRun_succ (s0 : ButtonVars) (tr : Nat → ButtonIn) (ev : Nat → EventBits) (n : Nat) :
    buttonRun s0 tr ev (n + 1) = (buttonOut s0 tr ev n).vars := rfl

/-- A pass that sets the request finds the stable reading released, leaves it
pressed, reads the pin `LOW` and sees more than 50 ms on the debounce timer. -/
theorem dual_taskButton_pressReq (s : ButtonVars) (i : ButtonIn) (bits : EventBits)
    (h : (Dual.TaskButton s i bits).log = some ButtonLog.pressReq) :
    s.lastStable = HIGH ∧ (Dual.TaskButton s i bits).vars.lastStable = LOW ∧ i.r = LOW ∧
    50 < sub32 i.tCheck (if i.r != s.lastRead then u32 i.tChange else s.lastChangeMs) ∧
    hasBits bits EVT_CROSS_ACTIVE = false ∧ hasBits bits EVT_ILLEGAL = false := by
  simp only [Dual.TaskButton] at h ⊢
  split_ifs at h ⊢ <;> simp_all [HIGH, LOW]

/-- The stable reading cannot go from pressed to released without a pass that
releases it. -/
theorem released_between (s0 : ButtonVars) (tr : Nat → ButtonIn) (ev : Nat → EventBits) (a : Nat) :
    ∀ d, (buttonRun s0 tr ev a).lastStable = LOW → (buttonRun s0 tr ev (a + d)).lastStable = HIGH →
      ∃ k, a ≤ k ∧ k < a + d ∧ releasedAt s0 tr ev k = true := by
  intro d
  induction d with
  | zero =>
    intro h1 h2
    rw [Nat.add_zero, h1] at h2
    exact absurd h2 (by decide)
  | succ d ih =>
    intro h1 h2
    cases hm : (buttonRun s0 tr ev (a + d)).lastStable with
    | true =>
      obtain ⟨k, hk1, hk2, hk3⟩ := ih h1 hm
      exact ⟨k, hk1, by omega, hk3⟩
    | false =>
      refine ⟨a + d, by omega, by omega, ?_⟩
      have h3 : (buttonOut s0 tr ev (a + d)).vars.lastStable = HIGH := by
        rw [← buttonRun_succ]; exact h2
      simp [releasedAt, hm, h3, LOW]

/-- C2: over any trace of passes of `TaskButton`, between two passes that set
`CrossingRequested` there is a pass at which the stable reading changes back to
released. -/
theorem request_once_per_press (s0 : ButtonVars) (tr : Nat → ButtonIn) (ev : Nat → EventBits)
    (i j : Nat) (hij : i < j)
    (hi : setsRequest s0 tr ev i = true) (hj : setsRequest s0 tr ev j = true) :
    ∃ k, i < k ∧ k < j ∧ releasedAt s0 tr ev k = true := by
  simp only [setsRequest, buttonOut, beq_iff_eq] at hi hj
  have h1 := (dual_taskButton_pressReq _ _ _ hi).2.1
  have h2 := (dual_taskButton_pressReq _ _ _ hj).1
  obtain ⟨d, rfl⟩ : ∃ d, j = (i + 1) + d := ⟨j - (i + 1), by omega⟩
  obtain ⟨k, hk1, hk2, hk3⟩ := released_between s0 tr ev (i + 1) d h1 h2
  exact ⟨k, by omega, hk2, hk3⟩

/-- C2, at an instance: the requests of passes 1 and 5 of `twoPresses` are separated
by a release. -/
theorem request_once_per_press_witness :
    ∃ k, 1 < k ∧ k < 5 ∧ releasedAt ButtonVars.init twoPresses (fun _ => 0) k = true :=
  request_once_per_press ButtonVars.init twoPresses (fun _ => 0) 1 5 (by decide) (by decide) (by decide)

theorem sub32_held (t k : Nat) : sub32 (t + 10 * k) (u32 t) = (10 * k) % 4294967296 := by
  unfold sub32 u32; omega

theorem held_first (c t : Nat) (bits : EventBits) :
    (Dual.TaskButton ⟨HIGH, HIGH, c⟩ (heldFrom t 0) bits).vars = ⟨HIGH, LOW, u32 t⟩ ∧
    (Dual.TaskButton ⟨HIGH, HIGH, c⟩ (heldFrom t 0) bits).log = none := by
  have h : ¬ (50 < sub32 t (u32 t)) := by unfold sub32 u32; omega
  simp only [Dual.TaskButton, heldFrom, HIGH, LOW]
  simp [h]

theorem held_early (t k : Nat) (bits : EventBits) (hk : k < 6) :
    (Dual.TaskButton ⟨HIGH, LOW, u32 t⟩ (heldFrom t k) bits).vars = ⟨HIGH, LOW, u32 t⟩ ∧
    (Dual.TaskButton ⟨HIGH, LOW, u32 t⟩ (heldFrom t k) bits).log = none := by
  have h := sub32_held t k
  have h2 : ¬ (50 < sub32 (t + 10 * k) (u32 t)) := by
    rw [h, Nat.mod_eq_of_lt (by omega)]; omega
  simp only [Dual.TaskButton, heldFrom, HIGH, LOW] at h2 ⊢
  simp [h2]

theorem held_sixth (t : Nat) (bits : EventBits)
    (ha : CrossingActive bits = false) (hi : IllegalDetected bits = false) :
    (Dual.TaskButton ⟨HIGH, LOW, u32 t⟩ (heldFrom t 6) bits).vars = ⟨LOW, LOW, u32 t⟩ ∧
    (Dual.TaskButton ⟨HIGH, LOW, u32 t⟩ (heldFrom t 6) bits).log = some ButtonLog.pressReq := by
  have h := sub32_held t 6
  have h2 : 50 < sub32 (t + 10 * 6) (u32 t) := by rw [h]; omega
  simp only [CrossingActive, IllegalDetected] at ha hi
  simp only [Dual.TaskButton, heldFrom, HIGH, LOW] at h2 ⊢
  simp [h2, ha, hi]

theorem held_late (t k : Nat) (bits : EventBits) :
    (Dual.TaskButton ⟨LOW, LOW, u32 t⟩ (heldFrom t k) bits).vars = ⟨LOW, LOW, u32 t⟩ ∧
    (Dual.TaskButton ⟨LOW, LOW, u32 t⟩ (heldFrom t k) bits).log = none := by
  simp [Dual.TaskButton, heldFrom, HIGH, LOW]

/-- The locals of `TaskButton` while the button is held down from the released
stable state: the stable reading turns to pressed in pass 6. -/
theorem held_run (c t : Nat) (ev : Nat → EventBits)
    (hev : ∀ k, CrossingActive (ev k) = false ∧ IllegalDetected (ev k) = false) :
    ∀ k, buttonRun ⟨HIGH, HIGH, c⟩ (heldFrom t) ev (k + 1) =
      if k < 6 then ⟨HIGH, LOW, u32 t⟩ else ⟨LOW, LOW, u32 t⟩ := by
  intro k
  induction k with
  | zero => exact (held_first c t (ev 0)).1
  | succ k ih =>
    rw [buttonRun_succ, buttonOut, ih]
    by_cases h5 : k < 5
    · rw [if_pos (by omega), if_pos (by omega)]
      exact (held_early t (k + 1) _ (by omega)).1
    · by_cases h6 : k = 5
      · subst h6
        rw [if_pos (by omega), if_neg (by omega)]
        exact (held_sixth t _ (hev 6).1 (hev 6).2).1
      · rw [if_neg (by omega), if_neg (by omega)]
        exact (held_late t (k + 1) _).1

/-- C3 as stated fails: with the button first read down at time 1000 and held, the
pass at time 1050 does not set the request; the pass at time 1060 does. -/
theorem held_press_not_at_50ms :
    (heldFrom 1000 5).tCheck = 1000 + 50 ∧
    setsRequest ButtonVars.init (heldFrom 1000) (fun _ => 0) 5 = false ∧
    setsRequest ButtonVars.init (heldFrom 1000) (fun _ => 0) 6 = true := by
  decide

/-- C3, amended: from the released stable state, with `CrossingActive` and
`IllegalDetected` clear, a button first read down at time `t` and held, read
every 10 ms, sets `CrossingRequested` in exactly one pass, the pass at time
`t + 60`, the first at which the reading has held for more than 50 ms. -/
theorem held_press_requests_at_60ms (c t : Nat) (ev : Nat → EventBits)
    (hev : ∀ k, CrossingActive (ev k) = false ∧ IllegalDetected (ev k) = false) (k : Nat) :
    (setsRequest ⟨HIGH, HIGH, c⟩ (heldFrom t) ev k = true ↔ k = 6) ∧
    (heldFrom t 6).tCheck = t + 60 := by
  refine ⟨?_, rfl⟩
  simp only [setsRequest, buttonOut, beq_iff_eq]
  cases k with
  | zero =>
    simp only [buttonRun, (held_first c t (ev 0)).2]
    simp
  | succ k =>
    rw [held_run c t ev hev k]
    by_cases h5 : k < 5
    · rw [if_pos (by omega), (held_early t (k + 1) _ (by omega)).2]
      simp; omega
    · by_cases h6 : k = 5
      · subst h6
        rw [if_pos (by omega), (held_sixth t _ (hev 6).1 (hev 6).2).2]
        simp
      · rw [if_neg (by omega), (held_late t (k + 1) _).2]
        simp; omega

/-- C3 amended, at an instance: a press first read at time 1000. -/
theorem held_press_requests_at_60ms_witness :
    (setsRequest ⟨HIGH, HIGH, 0⟩ (heldFrom 1000) (fun _ => 0) 6 = true ↔ 6 = 6) ∧
    (heldFrom 1000 6).tCheck = 1000 + 60 :=
  held_press_requests_at_60ms 0 1000 (fun _ => 0) 
    (fun _ => ⟨(by decide : CrossingActive 0 = false), (by decide : IllegalDetected 0 = false)⟩) 6

/-! ## The button task: the debounce window -/

theorem dual_taskButton_lastRead (s : ButtonVars) (i : ButtonIn) (bits : EventBits) :
    (Dual.TaskButton s i bits).vars.lastRead = i.r := by
  simp only [Dual.TaskButton]
  split_ifs <;> simp_all

theorem dual_taskButton_lastChangeMs (s : ButtonVars) (i : ButtonIn) (bits : EventBits) :
    (Dual.TaskButton s i bits).vars.lastChangeMs =
      if i.r != s.lastRead then u32 i.tChange else s.lastChangeMs := by
  simp only [Dual.TaskButton]
  split_ifs <;> simp_all

theorem buttonRun_lastRead (s0 : ButtonVars) (tr : Nat → ButtonIn) (ev : Nat → EventBits) :
    ∀ n, (buttonRun s0 tr ev n).lastRead = prevReading s0 tr n := by
  intro n
  cases n with
  | zero => rfl
  | succ n => exact dual_taskButton_lastRead _ _ _

/-- After `n` passes the debounce timer holds the clock reading of a pass that is
no earlier than any pass at which the raw reading changed. -/
theorem change_recorded (s0 : ButtonVars) (tr : Nat → ButtonIn) (ev : Nat → EventBits) :
    ∀ n i, i < n → (tr i).r ≠ prevReading s0 tr i →
      ∃ i0, i ≤ i0 ∧ i0 < n ∧ (buttonRun s0 tr ev n).lastChangeMs = u32 (tr i0).tChange := by
  intro n
  induction n with
  | zero => intro i hi; omega
  | succ n ih =>
    intro i hi hne
    rw [buttonRun_succ, buttonOut, dual_taskButton_lastChangeMs, buttonRun_lastRead]
    by_cases hc : (tr n).r = prevReading s0 tr n
    · have hin : i < n := by
        rcases Nat.lt_succ_iff_lt_or_eq.mp hi with h | h
        · exact h
        · subst h; exact absurd hc hne
      obtain ⟨i0, h1, h2, h3⟩ := ih i hin hne
      refine ⟨i0, h1, by omega, ?_⟩
      simp [hc, h3]
    · exact ⟨n, by omega, by omega, by simp [hc]⟩

theorem tChange_mono (tr : Nat → ButtonIn)
    (hmono : ∀ k, (tr k).tChange ≤ (tr k).tCheck ∧ (tr k).tCheck ≤ (tr (k + 1)).tChange) :
    ∀ d a, (tr a).tChange ≤ (tr (a + d)).tChange := by
  intro d
  induction d with
  | zero => intro a; exact Nat.le_refl _
  | succ d ih =>
    intro a
    have h1 := ih a
    have h2 := hmono (a + d)
    have h3 : a + (d + 1) = a + d + 1 := rfl
    rw [h3]
    omega

theorem sub32_le_diff (a b : Nat) (h : a ≤ b) : sub32 b (u32 a) ≤ b - a := by
  unfold sub32 u32; omega

/-- A pass that sets the request reads the pin `LOW`, and no pass whose clock reading
lies within 50 ms of it saw the raw reading change. -/
theorem request_steady (s0 : ButtonVars) (tr : Nat → ButtonIn) (ev : Nat → EventBits)
    (hmono : ∀ k, (tr k).tChange ≤ (tr k).tCheck ∧ (tr k).tCheck ≤ (tr (k + 1)).tChange)
    (j : Nat) (hj : setsRequest s0 tr ev j = true) :
    (tr j).r = LOW ∧
    ∀ i, i ≤ j → (tr j).tCheck - (tr i).tChange ≤ 50 → (tr i).r = prevReading s0 tr i := by
  simp only [setsRequest, buttonOut, beq_iff_eq] at hj
  obtain ⟨-, -, hr, ht, -, -⟩ := dual_taskButton_pressReq _ _ _ hj
  refine ⟨hr, ?_⟩
  intro i hij hwin
  by_contra hne
  rw [buttonRun_lastRead] at ht
  obtain ⟨d, rfl⟩ : ∃ d, j = i + d := ⟨j - i, by omega⟩
  have hm1 := tChange_mono tr hmono d i
  have hm2 := (hmono (i + d)).1
  by_cases hc : (tr (i + d)).r = prevReading s0 tr (i + d)
  · have hlt : i < i + d := by
      rcases Nat.eq_zero_or_pos d with h | h
      · subst h; exact absurd hc hne
      · omega
    obtain ⟨i0, h1, h2, h3⟩ := change_recorded s0 tr ev (i + d) i hlt hne
    obtain ⟨e, rfl⟩ : ∃ e, i0 = i + e := ⟨i0 - i, by omega⟩
    obtain ⟨f, hf⟩ : ∃ f, i + d = (i + e) + f := ⟨i + d - (i + e), by omega⟩
    have hm3 := tChange_mono tr hmono e i
    have hm4 := tChange_mono tr hmono f (i + e)
    rw [← hf] at hm4
    have hs := sub32_le_diff (tr (i + e)).tChange (tr (i + d)).tCheck (by omega)
    simp only [hc, bne_self_eq_false, Bool.false_eq_true, if_false, h3] at ht
    omega
  · have hs := sub32_le_diff (tr (i + d)).tChange (tr (i + d)).tCheck hm2
    have hb : ((tr (i + d)).r != prevReading s0 tr (i + d)) = true := by simpa using hc
    simp only [hb, if_true] at ht
    omega

theorem pressedFor_mono (m t : Nat) (k : Nat) :
    (pressedFor m t k).tChange ≤ (pressedFor m t k).tCheck ∧
    (pressedFor m t k).tCheck ≤ (pressedFor m t (k + 1)).tChange := by
  simp only [pressedFor]; omega

theorem heldFrom_mono (t : Nat) (k : Nat) :
    (heldFrom t k).tChange ≤ (heldFrom t k).tCheck ∧
    (heldFrom t k).tCheck ≤ (heldFrom t (k + 1)).tChange := by
  simp only [heldFrom]; omega

/-- C4: over any trace of passes of `TaskButton` with non-decreasing clock readings,
a pass sets `CrossingRequested` only if it reads the pin `LOW` and no pass within
the 50 ms before it read a value different from the pass before; and a button
read down at up to 6 passes 10 ms apart (held for at most 50 ms, so also for
30 ms) and then released, from the released stable state, sets no request in
any pass. -/
theorem request_only_after_steady_press :
    (∀ (s0 : ButtonVars) (tr : Nat → ButtonIn) (ev : Nat → EventBits),
      (∀ k, (tr k).tChange ≤ (tr k).tCheck ∧ (tr k).tCheck ≤ (tr (k + 1)).tChange) →
      ∀ j, setsRequest s0 tr ev j = true →
        (tr j).r = LOW ∧
        ∀ i, i ≤ j → (tr j).tCheck - (tr i).tChange ≤ 50 → (tr i).r = prevReading s0 tr i) ∧
    (∀ (c t m : Nat) (ev : Nat → EventBits), m ≤ 6 →
      ∀ k, setsRequest ⟨HIGH, HIGH, c⟩ (pressedFor m t) ev k = false) := by
  refine ⟨request_steady, ?_⟩
  intro c t m ev hm k
  cases hk : setsRequest ⟨HIGH, HIGH, c⟩ (pressedFor m t) ev k with
  | false => rfl
  | true =>
    exfalso
    obtain ⟨hr, hwin⟩ := request_steady _ _ ev (pressedFor_mono m t) k hk
    have hkm : k < m := by
      by_contra hge
      simp [pressedFor, hge, HIGH, LOW] at hr
    have h0 := hwin 0 (Nat.zero_le k) (by simp only [pressedFor]; omega)
    have hpos : 0 < m := by omega
    simp [pressedFor, prevReading, hpos, HIGH, LOW] at h0

/-- C4, at instances: the request of pass 6 of a held button, and a 30 ms press. -/
theorem request_only_after_steady_press_witness :
    ((heldFrom 1000 6).r = LOW ∧
      (heldFrom 1000 3).r = prevReading ButtonVars.init (heldFrom 1000) 3) ∧
    setsRequest ⟨HIGH, HIGH, 0⟩ (pressedFor 3 1000) (fun _ => 0) 4 = false :=
  ⟨⟨(request_only_after_steady_press.1 ButtonVars.init (heldFrom 1000) (fun _ => 0)
        (heldFrom_mono 1000) 6 (by decide)).1,
    (request_only_after_steady_press.1 ButtonVars.init (heldFrom 1000) (fun _ => 0)
        (heldFrom_mono 1000) 6 (by decide)).2 3 (by decide) (by decide)⟩,
   request_only_after_steady_press.2 0 1000 3 (fun _ => 0) (by decide) 4⟩

/-! ## The traffic task, dual-sensor program: the crossing window -/

/-- In state `ST_GREEN_CROSS` the alert branch of line 211 is not taken. -/
theorem dual_taskTraffic_green (fuel : Nat) (s : TrafficVars) (i : TrafficIn) (bits : EventBits)
    (ign : Nat) (hst : s.st = TrafficState.ST_GREEN_CROSS) :
    Dual.TaskTraffic fuel s i bits ign = some (normalStates s i bits ign) := by
  simp [Dual.TaskTraffic, hst]

/-- C5: a pass of the dual-sensor `TaskTraffic` in state `ST_GREEN_CROSS` returns a
result whatever the flags; it goes to `ST_RED_IDLE` with `CrossingActive` cleared
exactly when `(millis - crossStart) mod 2^32 ≥ 10000`, and otherwise stays in
`ST_GREEN_CROSS` with the event bits untouched, so `CrossingActive` stays set. -/
theorem crossing_window_not_shortened (fuel : Nat) (s : TrafficVars) (i : TrafficIn)
    (bits : EventBits) (ign : Nat) (hst : s.st = TrafficState.ST_GREEN_CROSS) :
    ∃ o, Dual.TaskTraffic fuel s i bits ign = some o ∧
      ((o.vars.st = TrafficState.ST_RED_IDLE ∧ CrossingActive o.gEvent = false) ↔
        GREEN_CROSS_MS ≤ sub32 i.tElapsed s.crossStart) ∧
      (GREEN_CROSS_MS ≤ sub32 i.tElapsed s.crossStart →
        o.gEvent = xEventGroupClearBits bits EVT_CROSS_ACTIVE) ∧
      (sub32 i.tElapsed s.crossStart < GREEN_CROSS_MS →
        o.vars.st = TrafficState.ST_GREEN_CROSS ∧ o.gEvent = bits ∧
        (CrossingActive bits = true → CrossingActive o.gEvent = true)) := by
  refine ⟨_, dual_taskTraffic_green fuel s i bits ign hst, ?_, ?_, ?_⟩
  · by_cases h : GREEN_CROSS_MS ≤ sub32 i.tElapsed s.crossStart
    · simp only [normalStates, hst, ge_iff_le, h, if_true, true_and, iff_true]
      rw [crossingActive_eq, testBit_clear_active]; simp
    · simp only [normalStates, hst, ge_iff_le, h, if_false, iff_false]
      rintro ⟨h1, -⟩
      exact absurd h1 (by decide)
  · intro h
    simp only [normalStates, hst, ge_iff_le, h, if_true]
  · intro h
    have h2 : ¬ GREEN_CROSS_MS ≤ sub32 i.tElapsed s.crossStart := by omega
    simp only [normalStates, hst, ge_iff_le, h2, if_false]
    exact ⟨trivial, trivial, fun h3 => h3⟩

/-- C5, at an instance: 9999 ms into the window with `IllegalDetected` and
`CrossingRequested` both set besides `CrossingActive`. -/
theorem crossing_window_not_shortened_witness :
    ∃ o, Dual.TaskTraffic 0 ⟨TrafficState.ST_GREEN_CROSS, 500, setCar false false true, LOW⟩
        ⟨0, fun _ => 0, 0, 0, 10499⟩ 7 0 = some o ∧
      ((o.vars.st = TrafficState.ST_RED_IDLE ∧ CrossingActive o.gEvent = false) ↔
        GREEN_CROSS_MS ≤ sub32 10499 500) ∧
      (GREEN_CROSS_MS ≤ sub32 10499 500 → o.gEvent = xEventGroupClearBits 7 EVT_CROSS_ACTIVE) ∧
      (sub32 10499 500 < GREEN_CROSS_MS →
        o.vars.st = TrafficState.ST_GREEN_CROSS ∧ o.gEvent = 7 ∧
        (CrossingActive 7 = true → CrossingActive o.gEvent = true)) :=
  crossing_window_not_shortened 0 ⟨TrafficState.ST_GREEN_CROSS, 500, setCar false false true, LOW⟩
    ⟨0, fun _ => 0, 0, 0, 10499⟩ 7 0 rfl

/-! ## The motion task, dual-sensor program -/

/-- For timestamps below `2 ^ 31` the expression of line 172 is the plain distance. -/
theorem absDiff32_small (a b : Nat) (ha : a < 2147483648) (hb : b < 2147483648) :
    absDiff32 a b = if a ≤ b then b - a else a - b := by
  unfold absDiff32 wrapInt32 toInt32 u32
  split_ifs <;> omega

/-- A pass of `TaskPIR` that is not suppressed. -/
theorem dual_taskPIR_unsuppressed (s : PirVars) (i : PirIn) (bits : EventBits) (ign : Nat)
    (hact : CrossingActive bits = false) (hnow : ign ≤ u32 i.now) :
    Dual.TaskPIR s i bits ign =
      if Dual.both (if i.m1 then u32 i.now else s.tPir1) (if i.m2 then u32 i.now else s.tPir2) then
        { vars := ⟨if i.m1 then u32 i.now else s.tPir1, if i.m2 then u32 i.now else s.tPir2⟩,
          gEvent := xEventGroupSetBits bits EVT_ILLEGAL }
      else if Dual.stale (u32 i.now) (if i.m1 then u32 i.now else s.tPir1) &&
          Dual.stale (u32 i.now) (if i.m2 then u32 i.now else s.tPir2) then
        { vars := ⟨0, 0⟩, gEvent := xEventGroupClearBits bits EVT_ILLEGAL }
      else
        { vars := ⟨if i.m1 then u32 i.now else s.tPir1, if i.m2 then u32 i.now else s.tPir2⟩,
          gEvent := bits } := by
  have h1 : hasBits bits EVT_CROSS_ACTIVE = false := hact
  have h2 : ¬ (u32 i.now < ign) := by omega
  simp only [Dual.TaskPIR, h1, h2, Bool.false_eq_true, if_false]

theorem illegalDetected_set (b : EventBits) :
    IllegalDetected (xEventGroupSetBits b EVT_ILLEGAL) = true := by
  rw [illegalDetected_eq, testBit_set_illegal]; simp

theorem illegalDetected_clear (b : EventBits) :
    IllegalDetected (xEventGroupClearBits b EVT_ILLEGAL) = false := by
  rw [illegalDetected_eq, testBit_clear_illegal]; simp

theorem both_zero_left (t : Nat) : Dual.both 0 t = false := by simp [Dual.both]

theorem both_zero_right (t : Nat) : Dual.both t 0 = false := by simp [Dual.both]

theorem stale_zero (now : Nat) : Dual.stale now 0 = true := by simp [Dual.stale]

/-- C6 as stated fails: three passes of `TaskPIR` from the start of the program,
none suppressed, after which `IllegalDetected` is set while the two timestamps,
1000 and 100, are 900 ms apart. -/
theorem illegal_stays_set_when_timestamps_drift :
    (driftPasses.foldl Dual.Sys.stepPIR Dual.Sys.init).pir = ⟨1000, 100⟩ ∧
    Dual.suppressed ⟨1000, true, false⟩ ((driftPasses.take 2).foldl Dual.Sys.stepPIR Dual.Sys.init).gEvent
      ((driftPasses.take 2).foldl Dual.Sys.stepPIR Dual.Sys.init).gIllegalIgnoreUntil = false ∧
    IllegalDetected (driftPasses.foldl Dual.Sys.stepPIR Dual.Sys.init).gEvent = true ∧
    Dual.both 1000 100 = false ∧ absDiff32 1000 100 = 900 := by
  decide

/-- C6, amended: after a pass of the dual-sensor `TaskPIR` that is not suppressed,
`IllegalDetected` is set exactly when the two timestamps are both non-null and at
most 800 ms apart, or the flag was set before the pass and the timestamps are not
both stale (never, or more than 800 ms before the pass). -/
theorem illegal_flag_after_unsuppressed_pass (s : PirVars) (i : PirIn) (bits : EventBits)
    (ign : Nat) (hact : CrossingActive bits = false) (hnow : ign ≤ u32 i.now) :
    (IllegalDetected (Dual.TaskPIR s i bits ign).gEvent = true ↔
      (Dual.both (Dual.TaskPIR s i bits ign).vars.tPir1 (Dual.TaskPIR s i bits ign).vars.tPir2 = true ∨
        (IllegalDetected bits = true ∧
          ¬ (Dual.stale (u32 i.now) (Dual.TaskPIR s i bits ign).vars.tPir1 = true ∧
             Dual.stale (u32 i.now) (Dual.TaskPIR s i bits ign).vars.tPir2 = true)))) := by
  rw [dual_taskPIR_unsuppressed s i bits ign hact hnow]
  generalize (if i.m1 = true then u32 i.now else s.tPir1) = t1
  generalize (if i.m2 = true then u32 i.now else s.tPir2) = t2
  by_cases h1 : Dual.both t1 t2 = true
  · simp [illegalDetected_set, h1]
  · by_cases h2 : (Dual.stale (u32 i.now) t1 && Dual.stale (u32 i.now) t2) = true
    · simp [h1, h2, illegalDetected_clear, both_zero_left, stale_zero]
    · simp only [h1, h2, Bool.false_eq_true, if_false, false_or]
      simp only [Bool.and_eq_true] at h2
      simp [h2]

/-- C6 amended, at an instance: the third pass of the run above keeps the flag. -/
theorem illegal_flag_after_unsuppressed_pass_witness :
    (IllegalDetected (Dual.TaskPIR ⟨500, 100⟩ ⟨1000, true, false⟩ EVT_ILLEGAL 0).gEvent = true ↔
      (Dual.both (Dual.TaskPIR ⟨500, 100⟩ ⟨1000, true, false⟩ EVT_ILLEGAL 0).vars.tPir1
          (Dual.TaskPIR ⟨500, 100⟩ ⟨1000, true, false⟩ EVT_ILLEGAL 0).vars.tPir2 = true ∨
        (IllegalDetected EVT_ILLEGAL = true ∧
          ¬ (Dual.stale (u32 1000) (Dual.TaskPIR ⟨500, 100⟩ ⟨1000, true, false⟩ EVT_ILLEGAL 0).vars.tPir1 = true ∧
             Dual.stale (u32 1000) (Dual.TaskPIR ⟨500, 100⟩ ⟨1000, true, false⟩ EVT_ILLEGAL 0).vars.tPir2 = true)))) :=
  illegal_flag_after_unsuppressed_pass ⟨500, 100⟩ ⟨1000, true, false⟩ EVT_ILLEGAL 0
    (by decide) (by decide)

/-- Every pass of the dual-sensor `TaskPIR` leaves the event bits as they were, or
with `EVT_ILLEGAL` switched on after finding `both`, or with it switched off. -/
theorem dual_taskPIR_gEvent (s : PirVars) (i : PirIn) (bits : EventBits) (ign : Nat) :
    (Dual.TaskPIR s i bits ign).gEvent = bits ∨
    (Dual.TaskPIR s i bits ign).gEvent = xEventGroupClearBits bits EVT_ILLEGAL ∨
    ((Dual.TaskPIR s i bits ign).gEvent = xEventGroupSetBits bits EVT_ILLEGAL ∧
      Dual.both (if i.m1 then u32 i.now else s.tPir1) (if i.m2 then u32 i.now else s.tPir2) = true) := by
  simp only [Dual.TaskPIR]
  generalize (if i.m1 = true then u32 i.now else s.tPir1) = t1
  generalize (if i.m2 = true then u32 i.now else s.tPir2) = t2
  by_cases h0 : hasBits bits EVT_CROSS_ACTIVE = true
  · simp [h0]
  · by_cases h1 : u32 i.now < ign
    · simp [h0, h1]
    · by_cases h2 : Dual.both t1 t2 = true
      · simp [h0, h1, h2]
      · by_cases h3 : (Dual.stale (u32 i.now) t1 && Dual.stale (u32 i.now) t2) = true
        · simp only [h0, h1, h2, h3, if_true, if_false, Bool.false_eq_true]
          simp
        · simp only [h0, h1, h2, h3, if_true, if_false, Bool.false_eq_true]
          simp

/-- The timestamp of a sensor after a pass is `0`, the old one, or, when the sensor
was confirmed, the time of the pass. -/
theorem dual_taskPIR_tPir (s : PirVars) (i : PirIn) (bits : EventBits) (ign : Nat) :
    ((Dual.TaskPIR s i bits ign).vars.tPir1 = 0 ∨
      (Dual.TaskPIR s i bits ign).vars.tPir1 = (if i.m1 then u32 i.now else s.tPir1)) ∧
    ((Dual.TaskPIR s i bits ign).vars.tPir2 = 0 ∨
      (Dual.TaskPIR s i bits ign).vars.tPir2 = (if i.m2 then u32 i.now else s.tPir2)) := by
  simp only [Dual.TaskPIR]
  generalize (if i.m1 = true then u32 i.now else s.tPir1) = t1
  generalize (if i.m2 = true then u32 i.now else s.tPir2) = t2
  split_ifs <;> simp

theorem pirRun_tPir1_zero (tr : Nat → PirIn) (ev : Nat → EventBits) (ign : Nat → Nat)
    (h : ∀ k, (tr k).m1 = false) : ∀ n, (Dual.pirRun PirVars.init tr ev ign n).tPir1 = 0 := by
  intro n
  induction n with
  | zero => rfl
  | succ n ih =>
    have h1 := (dual_taskPIR_tPir (Dual.pirRun PirVars.init tr ev ign n) (tr n) (ev n) (ign n)).1
    simp only [h n, ih, Bool.false_eq_true, if_false, or_self] at h1
    exact h1

theorem pirRun_tPir2_zero (tr : Nat → PirIn) (ev : Nat → EventBits) (ign : Nat → Nat)
    (h : ∀ k, (tr k).m2 = false) : ∀ n, (Dual.pirRun PirVars.init tr ev ign n).tPir2 = 0 := by
  intro n
  induction n with
  | zero => rfl
  | succ n ih =>
    have h1 := (dual_taskPIR_tPir (Dual.pirRun PirVars.init tr ev ign n) (tr n) (ev n) (ign n)).2
    simp only [h n, ih, Bool.false_eq_true, if_false, or_self] at h1
    exact h1

/-- With one sensor never confirmed, no pass finds `both`. -/
theorem one_sensor_not_both (tr : Nat → PirIn) (ev : Nat → EventBits) (ign : Nat → Nat)
    (hone : (∀ k, (tr k).m1 = false) ∨ (∀ k, (tr k).m2 = false)) (n : Nat) :
    Dual.both (if (tr n).m1 then u32 (tr n).now else (Dual.pirRun PirVars.init tr ev ign n).tPir1)
      (if (tr n).m2 then u32 (tr n).now else (Dual.pirRun PirVars.init tr ev ign n).tPir2) = false := by
  rcases hone with h | h
  · rw [h n, pirRun_tPir1_zero tr ev ign h n]
    exact both_zero_left _
  · rw [h n, pirRun_tPir2_zero tr ev ign h n]
    exact both_zero_right _

/-- C7: over any trace of passes of the dual-sensor `TaskPIR` from its initial
locals in which one of the two sensors is never confirmed, no pass turns
`IllegalDetected` on; so when the flag is clear at the start and nothing else
sets it between the passes, it is clear after every pass. -/
theorem single_sensor_never_sets_illegal (tr : Nat → PirIn) (ev : Nat → EventBits)
    (ign : Nat → Nat) (hone : (∀ k, (tr k).m1 = false) ∨ (∀ k, (tr k).m2 = false)) :
    (∀ n, IllegalDetected (Dual.pirOut PirVars.init tr ev ign n).gEvent = true →
      IllegalDetected (ev n) = true) ∧
    (IllegalDetected (ev 0) = false →
      (∀ n, IllegalDetected (ev (n + 1)) = true →
        IllegalDetected (Dual.pirOut PirVars.init tr ev ign n).gEvent = true) →
      ∀ n, IllegalDetected (Dual.pirOut PirVars.init tr ev ign n).gEvent = false) := by
  have hstep : ∀ n, IllegalDetected (Dual.pirOut PirVars.init tr ev ign n).gEvent = true →
      IllegalDetected (ev n) = true := by
    intro n hn
    have hb := one_sensor_not_both tr ev ign hone n
    rcases dual_taskPIR_gEvent (Dual.pirRun PirVars.init tr ev ign n) (tr n) (ev n) (ign n)
      with h | h | ⟨-, h⟩
    · rw [Dual.pirOut, h] at hn; exact hn
    · rw [Dual.pirOut, h, illegalDetected_clear] at hn
      exact absurd hn (by decide)
    · rw [hb] at h
      exact absurd h (by decide)
  refine ⟨hstep, ?_⟩
  intro h0 henv n
  have hin : ∀ m, IllegalDetected (ev m) = false := by
    intro m
    induction m with
    | zero => exact h0
    | succ m ih =>
      cases hc : IllegalDetected (ev (m + 1)) with
      | false => rfl
      | true =>
        have := hstep m (henv m hc)
        rw [ih] at this
        exact absurd this (by decide)
  cases hc : IllegalDetected (Dual.pirOut PirVars.init tr ev ign n).gEvent with
  | false => rfl
  | true =>
    have := hstep n hc
    rw [hin n] at this
    exact absurd this (by decide)

/-- C7, at an instance: sensor 1 alone confirmed at every pass, the flag clear in
the event bits each pass finds; after pass 20 it is clear. -/
theorem single_sensor_never_sets_illegal_witness :
    IllegalDetected (Dual.pirOut PirVars.init sensorOneOnly (fun _ => 0) (fun _ => 0) 20).gEvent = false :=
  (single_sensor_never_sets_illegal sensorOneOnly (fun _ => 0) (fun _ => 0)
    (Or.inr (fun _ => rfl))).2 (by decide) (fun _ h => absurd h (by decide)) 20

/-! ## The motion task, dual-sensor program: suppression -/

/-- What holds of a suppressed pass (lines 150-163, which come before any sleep): a
pass of the dual-sensor `TaskPIR` that finds `CrossingActive` set, or the clock
before the `gIllegalIgnoreUntil` it reads, leaves `IllegalDetected` clear and
both timestamps `0`, whatever the sensors read; so does a pass that reads the
`gIllegalIgnoreUntil` an alert pass of `TaskTraffic` wrote and finds its clock
before it. -/
theorem suppressed_pass_clears (s : PirVars) (i : PirIn) (bits : EventBits) (ign : Nat)
    (h : CrossingActive bits = true ∨ u32 i.now < ign) :
    (IllegalDetected (Dual.TaskPIR s i bits ign).gEvent = false ∧
      (Dual.TaskPIR s i bits ign).vars = ⟨0, 0⟩ ∧
      (Dual.TaskPIR s i bits ign).gEvent = xEventGroupClearBits bits EVT_ILLEGAL) ∧
    (∀ (fuel : Nat) (ts : TrafficVars) (ti : TrafficIn) (tbits : EventBits) (o : TrafficOut),
      Dual.TaskTraffic fuel ts ti tbits ign = some o → u32 i.now < o.gIllegalIgnoreUntil →
      IllegalDetected (Dual.TaskPIR s i bits o.gIllegalIgnoreUntil).gEvent = false) := by
  have key : ∀ g, (CrossingActive bits = true ∨ u32 i.now < g) →
      (Dual.TaskPIR s i bits g).vars = ⟨0, 0⟩ ∧
      (Dual.TaskPIR s i bits g).gEvent = xEventGroupClearBits bits EVT_ILLEGAL := by
    intro g hg
    simp only [Dual.TaskPIR]
    by_cases h0 : hasBits bits EVT_CROSS_ACTIVE = true
    · simp [h0]
    · have h1 : u32 i.now < g := by
        rcases hg with hg | hg
        · exact absurd hg h0
        · exact hg
      simp [h0, h1]
  refine ⟨⟨?_, (key ign h).1, (key ign h).2⟩, ?_⟩
  · rw [(key ign h).2]; exact illegalDetected_clear bits
  · intro fuel ts ti tbits o _ hlt
    rw [(key _ (Or.inr hlt)).2]; exact illegalDetected_clear bits

/-- A suppressed pass, at an instance: both sensors confirmed 1000 ms into a 5000 ms
cooldown that the pass reads. -/
theorem suppressed_pass_clears_witness :
    IllegalDetected (Dual.TaskPIR ⟨5900, 5900⟩ ⟨6000, true, true⟩ EVT_ILLEGAL 8500).gEvent = false ∧
    (Dual.TaskPIR ⟨5900, 5900⟩ ⟨6000, true, true⟩ EVT_ILLEGAL 8500).vars = ⟨0, 0⟩ :=
  ⟨(suppressed_pass_clears ⟨5900, 5900⟩ ⟨6000, true, true⟩ EVT_ILLEGAL 8500 (Or.inr (by decide))).1.1,
   (suppressed_pass_clears ⟨5900, 5900⟩ ⟨6000, true, true⟩ EVT_ILLEGAL 8500 (Or.inr (by decide))).1.2.1⟩

/-! ## The traffic task, dual-sensor program: the alert -/

/-- The alert loop is left at the first test that shows `ILLEGAL_RUN_MS` elapsed,
once there is such a test and the fuel reaches it. -/
theorem alertLoop_exit (t0 : Nat) (clk : Nat → Nat) :
    ∀ fuel k0 k, k0 ≤ k → ILLEGAL_RUN_MS ≤ sub32 (clk k) t0 → k - k0 < fuel →
      ∃ n, Dual.alertLoop t0 clk fuel k0 = some n ∧ k0 ≤ n ∧ n ≤ k ∧
        ILLEGAL_RUN_MS ≤ sub32 (clk n) t0 ∧
        ∀ j, k0 ≤ j → j < n → sub32 (clk j) t0 < ILLEGAL_RUN_MS := by
  intro fuel
  induction fuel with
  | zero => intro k0 k _ _ hf; omega
  | succ fuel ih =>
    intro k0 k hk hexit hf
    by_cases hc : sub32 (clk k0) t0 < ILLEGAL_RUN_MS
    · have hne : k0 ≠ k := by
        rintro rfl
        omega
      obtain ⟨n, h1, h2, h3, h4, h5⟩ := ih (k0 + 1) k (by omega) hexit (by omega)
      refine ⟨n, ?_, by omega, h3, h4, ?_⟩
      · simp only [Dual.alertLoop, hc, if_true]
        exact h1
      · intro j hj1 hj2
        by_cases hj : j = k0
        · subst hj; exact hc
        · exact h5 j (by omega) hj2
    · refine ⟨k0, ?_, Nat.le_refl _, hk, by omega, ?_⟩
      · simp only [Dual.alertLoop, hc, if_false]
      · intro j hj1 hj2; omega

/-- A clock that moves on by at least 1 ms and at most `2 ^ 32 - 3000` ms between two
tests of the alert loop shows `ILLEGAL_RUN_MS` elapsed within 3001 tests. -/
theorem ticking_clock_exits (t0 : Nat) (clk : Nat → Nat)
    (htick : ∀ j, 1 ≤ sub32 (clk (j + 1)) (clk j) ∧ sub32 (clk (j + 1)) (clk j) ≤ 4294964296) :
    ∃ k, k ≤ 3000 ∧ ILLEGAL_RUN_MS ≤ sub32 (clk k) t0 := by
  have key : ∀ n, (∃ k, k ≤ n ∧ ILLEGAL_RUN_MS ≤ sub32 (clk k) t0) ∨ n ≤ sub32 (clk n) t0 := by
    intro n
    induction n with
    | zero => right; exact Nat.zero_le _
    | succ n ih =>
      rcases ih with ⟨k, hk1, hk2⟩ | h
      · exact Or.inl ⟨k, by omega, hk2⟩
      · by_cases hc : ILLEGAL_RUN_MS ≤ sub32 (clk n) t0
        · exact Or.inl ⟨n, by omega, hc⟩
        · right
          have ht := htick n
          simp only [ILLEGAL_RUN_MS] at hc
          unfold sub32 at ht h hc ⊢
          omega
  rcases key 3000 with h | h
  · exact h
  · exact ⟨3000, Nat.le_refl _, by simp only [ILLEGAL_RUN_MS]; exact h⟩

/-- The alert pass when no other task writes the event bits while it runs: a pass
of the dual-sensor `TaskTraffic` that finds `IllegalDetected` set and
`CrossingActive` clear in a state other than `ST_GREEN_CROSS`, with a clock that
at some test of the alert loop shows 3000 ms elapsed and fuel to reach that test,
returns with `CrossingRequested` and `IllegalDetected` cleared, the buzzer off,
the state `ST_RED_IDLE`, the lights red, and `gIllegalIgnoreUntil` equal to the
clock reading taken after the alert plus 5000 (the 32-bit sum, which is the plain
sum unless it passes `2 ^ 32`); the alert loop beeped at every test that showed
less than 3000 ms elapsed. -/
theorem alert_pass_ends_in_idle (fuel : Nat) (s : TrafficVars) (i : TrafficIn) (bits : EventBits)
    (ign : Nat) (hill : IllegalDetected bits = true) (hact : CrossingActive bits = false)
    (hst : s.st ≠ TrafficState.ST_GREEN_CROSS)
    (k : Nat) (hk : ILLEGAL_RUN_MS ≤ sub32 (i.loopClk k) (u32 i.t0)) (hfuel : k < fuel) :
    ∃ o, Dual.TaskTraffic fuel s i bits ign = some o ∧
      CrossingRequested o.gEvent = false ∧ IllegalDetected o.gEvent = false ∧
      CrossingActive o.gEvent = false ∧
      o.vars.buzzer = LOW ∧ o.vars.st = TrafficState.ST_RED_IDLE ∧
      o.vars.car = { r := true, y := false, g := false } ∧
      o.gIllegalIgnoreUntil = add32 i.tEnd ILLEGAL_WAIT_MS ∧
      (i.tEnd + 5000 < 4294967296 → o.gIllegalIgnoreUntil = i.tEnd + 5000) ∧
      o.beeps ≤ k ∧ ILLEGAL_RUN_MS ≤ sub32 (i.loopClk o.beeps) (u32 i.t0) ∧
      ∀ j, j < o.beeps → sub32 (i.loopClk j) (u32 i.t0) < ILLEGAL_RUN_MS := by
  obtain ⟨n, h1, -, h3, h4, h5⟩ :=
    alertLoop_exit (u32 i.t0) i.loopClk fuel 0 k (Nat.zero_le _) hk (by omega)
  have hi : hasBits bits EVT_ILLEGAL = true := hill
  have ha : hasBits bits EVT_CROSS_ACTIVE = false := hact
  refine ⟨{ vars := { st := TrafficState.ST_RED_IDLE, crossStart := s.crossStart,
                      car := setCar true false false, buzzer := LOW },
            gEvent := xEventGroupClearBits (xEventGroupClearBits bits EVT_CROSS_REQ) EVT_ILLEGAL,
            gIllegalIgnoreUntil := add32 i.tEnd ILLEGAL_WAIT_MS, beeps := n },
    ?_, ?_, ?_, ?_, rfl, rfl, rfl, rfl, ?_, h3, h4, fun j hj => h5 j (Nat.zero_le _) hj⟩
  · simp [Dual.TaskTraffic, hi, ha, hst, h1]
  · rw [crossingRequested_eq, testBit_clear_illegal, testBit_clear_req]; simp
  · exact illegalDetected_clear _
  · rw [crossingActive_eq, testBit_clear_illegal, testBit_clear_req, ← crossingActive_eq, hact]
    rfl
  · intro hw
    simp only [add32, ILLEGAL_WAIT_MS]
    exact Nat.mod_eq_of_lt hw

/-- The alert pass left alone, at an instance: an alert started at time 500 with a
request pending. -/
theorem alert_pass_ends_in_idle_witness :
    ∃ o, Dual.TaskTraffic 11 TrafficVars.init alertClock (EVT_ILLEGAL ||| EVT_CROSS_REQ) 0 = some o ∧
      CrossingRequested o.gEvent = false ∧ IllegalDetected o.gEvent = false ∧
      CrossingActive o.gEvent = false ∧
      o.vars.buzzer = LOW ∧ o.vars.st = TrafficState.ST_RED_IDLE ∧
      o.vars.car = { r := true, y := false, g := false } ∧
      o.gIllegalIgnoreUntil = add32 alertClock.tEnd ILLEGAL_WAIT_MS ∧
      (alertClock.tEnd + 5000 < 4294967296 → o.gIllegalIgnoreUntil = alertClock.tEnd + 5000) ∧
      o.beeps ≤ 10 ∧ ILLEGAL_RUN_MS ≤ sub32 (alertClock.loopClk o.beeps) (u32 alertClock.t0) ∧
      ∀ j, j < o.beeps → sub32 (alertClock.loopClk j) (u32 alertClock.t0) < ILLEGAL_RUN_MS :=
  alert_pass_ends_in_idle 11 TrafficVars.init alertClock (EVT_ILLEGAL ||| EVT_CROSS_REQ) 0
    (by decide) (by decide) (by decide) 10
    (by simp [alertClock, sub32, u32, ILLEGAL_RUN_MS]) (by decide)

/-! ## The three tasks together: `CrossingActive` and the controller state -/

theorem crossingActive_set_req (b : EventBits) :
    CrossingActive (xEventGroupSetBits b EVT_CROSS_REQ) = CrossingActive b := by
  rw [crossingActive_eq, crossingActive_eq, testBit_set_req]; simp

theorem crossingActive_clear_req (b : EventBits) :
    CrossingActive (xEventGroupClearBits b EVT_CROSS_REQ) = CrossingActive b := by
  rw [crossingActive_eq, crossingActive_eq, testBit_clear_req]; simp

theorem crossingActive_set_illegal (b : EventBits) :
    CrossingActive (xEventGroupSetBits b EVT_ILLEGAL) = CrossingActive b := by
  rw [crossingActive_eq, crossingActive_eq, testBit_set_illegal]; simp

theorem crossingActive_clear_illegal (b : EventBits) :
    CrossingActive (xEventGroupClearBits b EVT_ILLEGAL) = CrossingActive b := by
  rw [crossingActive_eq, crossingActive_eq, testBit_clear_illegal]; simp

theorem crossingActive_set_active (b : EventBits) :
    CrossingActive (xEventGroupSetBits b EVT_CROSS_ACTIVE) = true := by
  rw [crossingActive_eq, testBit_set_active]; simp

theorem crossingActive_clear_active (b : EventBits) :
    CrossingActive (xEventGroupClearBits b EVT_CROSS_ACTIVE) = false := by
  rw [crossingActive_eq, testBit_clear_active]; simp

/-- No pass of `TaskButton` changes `CrossingActive`. -/
theorem dual_taskButton_crossingActive (s : ButtonVars) (i : ButtonIn) (bits : EventBits) :
    CrossingActive (Dual.TaskButton s i bits).gEvent = CrossingActive bits := by
  simp only [Dual.TaskButton]
  split_ifs <;> first | rfl | exact crossingActive_set_req bits

/-- No pass of the dual-sensor `TaskPIR` changes `CrossingActive`. -/
theorem dual_taskPIR_crossingActive (s : PirVars) (i : PirIn) (bits : EventBits) (ign : Nat) :
    CrossingActive (Dual.TaskPIR s i bits ign).gEvent = CrossingActive bits := by
  rcases dual_taskPIR_gEvent s i bits ign with h | h | ⟨h, -⟩
  · rw [h]
  · rw [h, crossingActive_clear_illegal]
  · rw [h, crossingActive_set_illegal]

/-- No pass of the single-sensor `TaskPIR` changes `CrossingActive`. -/
theorem single_taskPIR_crossingActive (motion : Bool) (bits : EventBits) :
    CrossingActive (Single.TaskPIR motion bits) = CrossingActive bits := by
  cases motion
  · exact crossingActive_clear_illegal bits
  · exact crossingActive_set_illegal bits

/-- The `switch (st)` keeps `CrossingActive` in step with the state. -/
theorem normalStates_activeIffGreen (s : TrafficVars) (i : TrafficIn) (bits : EventBits) (ign : Nat)
    (h : ActiveIffGreen bits s.st) :
    ActiveIffGreen (normalStates s i bits ign).gEvent (normalStates s i bits ign).vars.st := by
  unfold ActiveIffGreen at h ⊢
  cases hst : s.st with
  | ST_RED_IDLE =>
    by_cases hr : hasBits bits EVT_CROSS_REQ = true
    · simp [normalStates, hst, hr, crossingActive_set_active]
    · rw [hst] at h
      simp only [normalStates, hst, hr, if_false, Bool.false_eq_true]
      exact h
  | ST_GREEN_CROSS =>
    by_cases he : GREEN_CROSS_MS ≤ sub32 i.tElapsed s.crossStart
    · simp [normalStates, hst, he, crossingActive_clear_active]
    · rw [hst] at h
      simp only [normalStates, hst, ge_iff_le, he, if_false]
      simpa using h
  | ST_ILLEGAL =>
    rw [hst] at h
    simp only [normalStates, hst]
    exact h

theorem dual_taskTraffic_activeIffGreen (fuel : Nat) (s : TrafficVars) (i : TrafficIn)
    (bits : EventBits) (ign : Nat) (o : TrafficOut)
    (ho : Dual.TaskTraffic fuel s i bits ign = some o) (h : ActiveIffGreen bits s.st) :
    ActiveIffGreen o.gEvent o.vars.st := by
  simp only [Dual.TaskTraffic] at ho
  split_ifs at ho with hg
  · cases hl : Dual.alertLoop (u32 i.t0) i.loopClk fuel 0 with
    | none => simp [hl] at ho
    | some n =>
      simp only [hl, Option.some.injEq] at ho
      subst ho
      simp only [Bool.and_eq_true, Bool.not_eq_true', bne_iff_ne, ne_eq] at hg
      have ha : CrossingActive bits = false := hg.1.2
      unfold ActiveIffGreen
      simp [crossingActive_clear_illegal, crossingActive_clear_req, ha]
  · simp only [Option.some.injEq] at ho
    subst ho
    exact normalStates_activeIffGreen s i bits ign h

theorem single_taskTraffic_activeIffGreen (s : TrafficVars) (i : TrafficIn) (bits : EventBits)
    (h : ActiveIffGreen bits s.st) :
    ActiveIffGreen (Single.TaskTraffic s i bits).gEvent (Single.TaskTraffic s i bits).vars.st := by
  simp only [Single.TaskTraffic]
  by_cases hi : hasBits bits EVT_ILLEGAL = true
  · by_cases hs : s.st = TrafficState.ST_ILLEGAL
    · unfold ActiveIffGreen at h ⊢
      rw [hs] at h
      simp only [hi, hs, if_true, bne_self_eq_false, Bool.false_eq_true, if_false]
      exact h
    · unfold ActiveIffGreen
      have hb : (s.st != TrafficState.ST_ILLEGAL) = true := by simpa using hs
      simp [hi, hb, crossingActive_clear_req, crossingActive_clear_active]
  · by_cases hs : s.st = TrafficState.ST_ILLEGAL
    · unfold ActiveIffGreen at h ⊢
      rw [hs] at h
      simp only [hi, hs, if_false, Bool.false_eq_true, beq_self_eq_true, Bool.not_false,
        Bool.and_self, if_true]
      simp only [reduceCtorEq, iff_false] at h ⊢
      exact h
    · have hb : (s.st == TrafficState.ST_ILLEGAL) = false := by simpa using hs
      simp only [hi, hb, if_false, Bool.false_eq_true, Bool.false_and]
      exact normalStates_activeIffGreen s i bits 0 h

theorem dual_reachable_activeIffGreen (s : Dual.Sys) (h : Dual.Reachable s) :
    ActiveIffGreen s.gEvent s.traffic.st := by
  induction h with
  | init => unfold ActiveIffGreen; decide
  | button s i _ ih =>
    unfold ActiveIffGreen at ih ⊢
    simp only [Dual.Sys.stepButton, dual_taskButton_crossingActive]
    exact ih
  | pir s i _ ih =>
    unfold ActiveIffGreen at ih ⊢
    simp only [Dual.Sys.stepPIR, dual_taskPIR_crossingActive]
    exact ih
  | traffic s s1 fuel i _ hstep ih =>
    simp only [Dual.Sys.stepTraffic] at hstep
    cases ho : Dual.TaskTraffic fuel s.traffic i s.gEvent s.gIllegalIgnoreUntil with
    | none => simp [ho] at hstep
    | some o =>
      simp only [ho, Option.map_some', Option.some.injEq] at hstep
      subst hstep
      exact dual_taskTraffic_activeIffGreen fuel s.traffic i s.gEvent s.gIllegalIgnoreUntil o ho ih

theorem single_reachable_activeIffGreen (s : Single.Sys) (h : Single.Reachable s) :
    ActiveIffGreen s.gEvent s.traffic.st := by
  induction h with
  | init => unfold ActiveIffGreen; decide
  | button s i _ ih =>
    unfold ActiveIffGreen at ih ⊢
    simp only [Single.Sys.stepButton, (single_taskButton_eq _ _ _).2, dual_taskButton_crossingActive]
    exact ih
  | pir s motion _ ih =>
    unfold ActiveIffGreen at ih ⊢
    simp only [Single.Sys.stepPIR, single_taskPIR_crossingActive]
    exact ih
  | traffic s i _ ih =>
    exact single_taskTraffic_activeIffGreen s.traffic i s.gEvent ih

/-- C10: in every state either program reaches from its initial state by passes of
its three tasks, `CrossingActive` is set exactly when the controller state is
`ST_GREEN_CROSS`; it is never set in state `ST_ILLEGAL`. -/
theorem crossingActive_iff_green_state :
    (∀ s, Dual.Reachable s →
      (CrossingActive s.gEvent = true ↔ s.traffic.st = TrafficState.ST_GREEN_CROSS) ∧
      ¬ (CrossingActive s.gEvent = true ∧ s.traffic.st = TrafficState.ST_ILLEGAL)) ∧
    (∀ s, Single.Reachable s →
      (CrossingActive s.gEvent = true ↔ s.traffic.st = TrafficState.ST_GREEN_CROSS) ∧
      ¬ (CrossingActive s.gEvent = true ∧ s.traffic.st = TrafficState.ST_ILLEGAL)) := by
  have key : ∀ g st, ActiveIffGreen g st →
      (CrossingActive g = true ↔ st = TrafficState.ST_GREEN_CROSS) ∧
      ¬ (CrossingActive g = true ∧ st = TrafficState.ST_ILLEGAL) := by
    intro g st h
    refine ⟨h, ?_⟩
    rintro ⟨h1, h2⟩
    have h3 := h.mp h1
    rw [h2] at h3
    exact absurd h3 (by decide)
  exact ⟨fun s hs => key _ _ (dual_reachable_activeIffGreen s hs),
    fun s hs => key _ _ (single_reachable_activeIffGreen s hs)⟩

/-- C10, at instances: a started crossing in the dual-sensor program and a
cancelled one in the single-sensor program. -/
theorem crossingActive_iff_green_state_witness :
    (Dual.crossingStarted = some ⟨EVT_CROSS_ACTIVE, 0, ⟨LOW, LOW, 100⟩, ⟨0, 0⟩,
        ⟨TrafficState.ST_GREEN_CROSS, 210, setCar true false false, LOW⟩⟩ ∧
      (CrossingActive EVT_CROSS_ACTIVE = true ↔
        TrafficState.ST_GREEN_CROSS = TrafficState.ST_GREEN_CROSS)) ∧
    (Single.crossingCancelled.traffic.st = TrafficState.ST_ILLEGAL ∧
      ¬ (CrossingActive Single.crossingCancelled.gEvent = true ∧
        Single.crossingCancelled.traffic.st = TrafficState.ST_ILLEGAL)) :=
  ⟨⟨by decide,
    (crossingActive_iff_green_state.1
      ⟨EVT_CROSS_ACTIVE, 0, ⟨LOW, LOW, 100⟩, ⟨0, 0⟩,
        ⟨TrafficState.ST_GREEN_CROSS, 210, setCar true false false, LOW⟩⟩
      (Dual.Reachable.traffic _ _ 0 (trafficAt 210)
        (Dual.Reachable.button _ ⟨LOW, 200, 200⟩
          (Dual.Reachable.button _ ⟨LOW, 100, 100⟩ Dual.Reachable.init))
        (by decide))).1⟩,
   ⟨by decide,
    (crossingActive_iff_green_state.2 Single.crossingCancelled
      (Single.Reachable.traffic _ (trafficAt 230)
        (Single.Reachable.pir _ true
          (Single.Reachable.traffic _ (trafficAt 210)
            (Single.Reachable.button _ ⟨LOW, 200, 200⟩
              (Single.Reachable.button _ ⟨LOW, 100, 100⟩ Single.Reachable.init)))))).2⟩⟩

/-! ## Each flag under each write of the event group -/

theorem crossingRequested_set_req (b : EventBits) :
    CrossingRequested (xEventGroupSetBits b EVT_CROSS_REQ) = true := by
  rw [crossingRequested_eq, testBit_set_req]; simp

theorem crossingRequested_clear_req (b : EventBits) :
    CrossingRequested (xEventGroupClearBits b EVT_CROSS_REQ) = false := by
  rw [crossingRequested_eq, testBit_clear_req]; simp

theorem crossingRequested_set_active (b : EventBits) :
    CrossingRequested (xEventGroupSetBits b EVT_CROSS_ACTIVE) = CrossingRequested b := by
  rw [crossingRequested_eq, crossingRequested_eq, testBit_set_active]; simp

theorem crossingRequested_clear_active (b : EventBits) :
    CrossingRequested (xEventGroupClearBits b EVT_CROSS_ACTIVE) = CrossingRequested b := by
  rw [crossingRequested_eq, crossingRequested_eq, testBit_clear_active]; simp

theorem crossingRequested_set_illegal (b : EventBits) :
    CrossingRequested (xEventGroupSetBits b EVT_ILLEGAL) = CrossingRequested b := by
  rw [crossingRequested_eq, crossingRequested_eq, testBit_set_illegal]; simp

theorem crossingRequested_clear_illegal (b : EventBits) :
    CrossingRequested (xEventGroupClearBits b EVT_ILLEGAL) = CrossingRequested b := by
  rw [crossingRequested_eq, crossingRequested_eq, testBit_clear_illegal]; simp

theorem illegalDetected_set_req (b : EventBits) :
    IllegalDetected (xEventGroupSetBits b EVT_CROSS_REQ) = IllegalDetected b := by
  rw [illegalDetected_eq, illegalDetected_eq, testBit_set_req]; simp

theorem illegalDetected_clear_req (b : EventBits) :
    IllegalDetected (xEventGroupClearBits b EVT_CROSS_REQ) = IllegalDetected b := by
  rw [illegalDetected_eq, illegalDetected_eq, testBit_clear_req]; simp

theorem illegalDetected_set_active (b : EventBits) :
    IllegalDetected (xEventGroupSetBits b EVT_CROSS_ACTIVE) = IllegalDetected b := by
  rw [illegalDetected_eq, illegalDetected_eq, testBit_set_active]; simp

theorem illegalDetected_clear_active (b : EventBits) :
    IllegalDetected (xEventGroupClearBits b EVT_CROSS_ACTIVE) = IllegalDetected b := by
  rw [illegalDetected_eq, illegalDetected_eq, testBit_clear_active]; simp

/-! ## The traffic task, single-sensor program: the illegal override -/

/-- A pass of the single-sensor `TaskTraffic` that finds `IllegalDetected` set. -/
theorem single_taskTraffic_illegal (s : TrafficVars) (i : TrafficIn) (bits : EventBits)
    (hill : IllegalDetected bits = true) :
    Single.TaskTraffic s i bits =
      { vars := { st := TrafficState.ST_ILLEGAL, crossStart := s.crossStart,
                  car := setCar false true false, buzzer := LOW },
        gEvent := if s.st != TrafficState.ST_ILLEGAL then
            xEventGroupClearBits (xEventGroupClearBits bits EVT_CROSS_ACTIVE) EVT_CROSS_REQ
          else bits,
        gIllegalIgnoreUntil := 0, beeps := 1 } := by
  have h : hasBits bits EVT_ILLEGAL = true := hill
  simp only [Single.TaskTraffic, h, if_true]

/-- A pass of the single-sensor `TaskTraffic` that finds `IllegalDetected` clear. -/
theorem single_taskTraffic_legal (s : TrafficVars) (i : TrafficIn) (bits : EventBits)
    (hill : IllegalDetected bits = false) :
    Single.TaskTraffic s i bits =
      if s.st = TrafficState.ST_ILLEGAL then
        { vars := { st := TrafficState.ST_RED_IDLE, crossStart := s.crossStart,
                    car := setCar true false false, buzzer := s.buzzer },
          gEvent := bits, gIllegalIgnoreUntil := 0, beeps := 0 }
      else normalStates s i bits 0 := by
  have h : hasBits bits EVT_ILLEGAL = false := hill
  by_cases hs : s.st = TrafficState.ST_ILLEGAL
  · simp [Single.TaskTraffic, h, hs]
  · have hb : (s.st == TrafficState.ST_ILLEGAL) = false := by simpa using hs
    simp [Single.TaskTraffic, h, hs, hb]

/-- C11: a pass of the single-sensor `TaskTraffic` in state `ST_GREEN_CROSS` that
finds `IllegalDetected` set ends in state `ST_ILLEGAL` with the lights yellow (the
red line off, the yellow line on, the green line off) and with `CrossingActive`
and `CrossingRequested` both clear, whatever the clock readings, so whatever the
time elapsed since the crossing started. -/
theorem illegal_cancels_crossing (s : TrafficVars) (i : TrafficIn) (bits : EventBits)
    (hst : s.st = TrafficState.ST_GREEN_CROSS) (hill : IllegalDetected bits = true) :
    (Single.TaskTraffic s i bits).vars.st = TrafficState.ST_ILLEGAL ∧
    (Single.TaskTraffic s i bits).vars.car = { r := false, y := true, g := false } ∧
    CrossingActive (Single.TaskTraffic s i bits).gEvent = false ∧
    CrossingRequested (Single.TaskTraffic s i bits).gEvent = false := by
  rw [single_taskTraffic_illegal s i bits hill]
  refine ⟨rfl, rfl, ?_, ?_⟩
  · simp [hst, crossingActive_clear_req, crossingActive_clear_active]
  · simp [hst, crossingRequested_clear_req]

/-- C11, at an instance: motion seen 20 ms into a crossing with a second request
pending. -/
theorem illegal_cancels_crossing_witness :
    (Single.TaskTraffic ⟨TrafficState.ST_GREEN_CROSS, 210, setCar false false true, LOW⟩
      (trafficAt 230) 7).vars.st = TrafficState.ST_ILLEGAL ∧
    (Single.TaskTraffic ⟨TrafficState.ST_GREEN_CROSS, 210, setCar false false true, LOW⟩
      (trafficAt 230) 7).vars.car = { r := false, y := true, g := false } ∧
    CrossingActive (Single.TaskTraffic ⟨TrafficState.ST_GREEN_CROSS, 210, setCar false false true, LOW⟩
      (trafficAt 230) 7).gEvent = false ∧
    CrossingRequested (Single.TaskTraffic ⟨TrafficState.ST_GREEN_CROSS, 210, setCar false false true, LOW⟩
      (trafficAt 230) 7).gEvent = false :=
  illegal_cancels_crossing ⟨TrafficState.ST_GREEN_CROSS, 210, setCar false false true, LOW⟩
    (trafficAt 230) 7 rfl (by decide)

/-! ## The traffic task: the idle state and the lights -/

/-- The test of line 211 under which the dual-sensor `TaskTraffic` runs the alert. -/
theorem dual_taskTraffic_normal (fuel : Nat) (s : TrafficVars) (i : TrafficIn) (bits : EventBits)
    (ign : Nat)
    (h : IllegalDetected bits = false ∨ CrossingActive bits = true ∨
      s.st = TrafficState.ST_GREEN_CROSS) :
    Dual.TaskTraffic fuel s i bits ign = some (normalStates s i bits ign) := by
  simp only [IllegalDetected, CrossingActive] at h
  rcases h with h | h | h <;> simp [Dual.TaskTraffic, h]

/-- The `switch (st)` in state `ST_RED_IDLE` with a request pending. -/
theorem normalStates_idle_request (s : TrafficVars) (i : TrafficIn) (bits : EventBits) (ign : Nat)
    (hst : s.st = TrafficState.ST_RED_IDLE) (hreq : CrossingRequested bits = true) :
    normalStates s i bits ign =
      { vars := { st := TrafficState.ST_GREEN_CROSS, crossStart := u32 i.tCross,
                  car := setCar true false false, buzzer := s.buzzer },
        gEvent := xEventGroupSetBits (xEventGroupClearBits bits EVT_CROSS_REQ) EVT_CROSS_ACTIVE,
        gIllegalIgnoreUntil := ign, beeps := 0 } := by
  have h : hasBits bits EVT_CROSS_REQ = true := hreq
  simp only [normalStates, hst, h, if_true]

/-- The `switch (st)` in state `ST_RED_IDLE` with no request pending. -/
theorem normalStates_idle_rest (s : TrafficVars) (i : TrafficIn) (bits : EventBits) (ign : Nat)
    (hst : s.st = TrafficState.ST_RED_IDLE) (hreq : CrossingRequested bits = false) :
    normalStates s i bits ign =
      { vars := { st := TrafficState.ST_RED_IDLE, crossStart := s.crossStart,
                  car := setCar true false false, buzzer := s.buzzer },
        gEvent := bits, gIllegalIgnoreUntil := ign, beeps := 0 } := by
  have h : hasBits bits EVT_CROSS_REQ = false := hreq
  simp only [normalStates, hst, h, if_false, Bool.false_eq_true]

/-- The `switch (st)` in state `ST_GREEN_CROSS` before the window has run out. -/
theorem normalStates_green_running (s : TrafficVars) (i : TrafficIn) (bits : EventBits) (ign : Nat)
    (hst : s.st = TrafficState.ST_GREEN_CROSS)
    (hel : sub32 i.tElapsed s.crossStart < GREEN_CROSS_MS) :
    normalStates s i bits ign =
      { vars := { st := TrafficState.ST_GREEN_CROSS, crossStart := s.crossStart,
                  car := setCar false false true, buzzer := s.buzzer },
        gEvent := bits, gIllegalIgnoreUntil := ign, beeps := 0 } := by
  have h : ¬ GREEN_CROSS_MS ≤ sub32 i.tElapsed s.crossStart := by omega
  simp only [normalStates, hst, ge_iff_le, h, if_false]

/-- The flags after the writes of lines 254-255. -/
theorem flags_after_start (bits : EventBits) :
    CrossingRequested
        (xEventGroupSetBits (xEventGroupClearBits bits EVT_CROSS_REQ) EVT_CROSS_ACTIVE) = false ∧
    CrossingActive
        (xEventGroupSetBits (xEventGroupClearBits bits EVT_CROSS_REQ) EVT_CROSS_ACTIVE) = true ∧
    IllegalDetected
        (xEventGroupSetBits (xEventGroupClearBits bits EVT_CROSS_REQ) EVT_CROSS_ACTIVE) =
      IllegalDetected bits := by
  refine ⟨?_, crossingActive_set_active _, ?_⟩
  · rw [crossingRequested_set_active, crossingRequested_clear_req]
  · rw [illegalDetected_set_active, illegalDetected_clear_req]

/-- C12: in both programs a pass of `TaskTraffic` in state `ST_RED_IDLE` that does
not take the alert branch and finds `CrossingRequested` set clears it, sets
`CrossingActive`, leaves `IllegalDetected`, stores the clock reading in
`crossStart` and goes to `ST_GREEN_CROSS`; one that finds `CrossingRequested`
clear stays in `ST_RED_IDLE` and leaves the event bits as they are. -/
theorem idle_pass_starts_crossing (fuel : Nat) (s : TrafficVars) (i : TrafficIn)
    (bits : EventBits) (ign : Nat) (hst : s.st = TrafficState.ST_RED_IDLE) :
    ((IllegalDetected bits = false ∨ CrossingActive bits = true) →
      ∃ o, Dual.TaskTraffic fuel s i bits ign = some o ∧
        (CrossingRequested bits = true →
          CrossingRequested o.gEvent = false ∧ CrossingActive o.gEvent = true ∧
          IllegalDetected o.gEvent = IllegalDetected bits ∧
          o.vars.crossStart = u32 i.tCross ∧ o.vars.st = TrafficState.ST_GREEN_CROSS) ∧
        (CrossingRequested bits = false →
          o.vars.st = TrafficState.ST_RED_IDLE ∧ o.gEvent = bits)) ∧
    (IllegalDetected bits = false →
      (CrossingRequested bits = true →
        CrossingRequested (Single.TaskTraffic s i bits).gEvent = false ∧
        CrossingActive (Single.TaskTraffic s i bits).gEvent = true ∧
        IllegalDetected (Single.TaskTraffic s i bits).gEvent = IllegalDetected bits ∧
        (Single.TaskTraffic s i bits).vars.crossStart = u32 i.tCross ∧
        (Single.TaskTraffic s i bits).vars.st = TrafficState.ST_GREEN_CROSS) ∧
      (CrossingRequested bits = false →
        (Single.TaskTraffic s i bits).vars.st = TrafficState.ST_RED_IDLE ∧
        (Single.TaskTraffic s i bits).gEvent = bits)) := by
  have hne : ¬ s.st = TrafficState.ST_ILLEGAL := by rw [hst]; decide
  constructor
  · intro h
    refine ⟨_, dual_taskTraffic_normal fuel s i bits ign
      (h.elim Or.inl (fun h2 => Or.inr (Or.inl h2))), ?_, ?_⟩
    · intro hreq
      rw [normalStates_idle_request s i bits ign hst hreq]
      exact ⟨(flags_after_start bits).1, (flags_after_start bits).2.1,
        (flags_after_start bits).2.2, rfl, rfl⟩
    · intro hreq
      rw [normalStates_idle_rest s i bits ign hst hreq]
      exact ⟨rfl, rfl⟩
  · intro hill
    rw [single_taskTraffic_legal s i bits hill, if_neg hne]
    constructor
    · intro hreq
      rw [normalStates_idle_request s i bits 0 hst hreq]
      exact ⟨(flags_after_start bits).1, (flags_after_start bits).2.1,
        (flags_after_start bits).2.2, rfl, rfl⟩
    · intro hreq
      rw [normalStates_idle_rest s i bits 0 hst hreq]
      exact ⟨rfl, rfl⟩

/-- C12, at an instance: a request found at time 210 by the single-sensor program. -/
theorem idle_pass_starts_crossing_witness :
    CrossingRequested (Single.TaskTraffic TrafficVars.init (trafficAt 210) EVT_CROSS_REQ).gEvent = false ∧
    CrossingActive (Single.TaskTraffic TrafficVars.init (trafficAt 210) EVT_CROSS_REQ).gEvent = true ∧
    IllegalDetected (Single.TaskTraffic TrafficVars.init (trafficAt 210) EVT_CROSS_REQ).gEvent =
      IllegalDetected EVT_CROSS_REQ ∧
    (Single.TaskTraffic TrafficVars.init (trafficAt 210) EVT_CROSS_REQ).vars.crossStart =
      u32 (trafficAt 210).tCross ∧
    (Single.TaskTraffic TrafficVars.init (trafficAt 210) EVT_CROSS_REQ).vars.st =
      TrafficState.ST_GREEN_CROSS :=
  ((idle_pass_starts_crossing 0 TrafficVars.init (trafficAt 210) EVT_CROSS_REQ 0 rfl).2
    (by decide)).1 (by decide)

/-- C13 as stated fails: a pass of `TaskTraffic` 20 ms into the crossing window, in
either program, calls `setCar(false, false, true)`: the red line is off and the
green line is on. -/
theorem crossing_lights_are_green :
    sub32 (trafficAt 230).tElapsed 210 < GREEN_CROSS_MS ∧
    (Dual.TaskTraffic 0 ⟨TrafficState.ST_GREEN_CROSS, 210, setCar true false false, LOW⟩
      (trafficAt 230) EVT_CROSS_ACTIVE 0).map (fun o => o.vars.car) = some ⟨false, false, true⟩ ∧
    (Single.TaskTraffic ⟨TrafficState.ST_GREEN_CROSS, 210, setCar true false false, LOW⟩
      (trafficAt 230) EVT_CROSS_ACTIVE).vars.car = ⟨false, false, true⟩ := by
  decide

/-- C13, amended: in both programs the pass of `TaskTraffic` that goes from
`ST_RED_IDLE` to `ST_GREEN_CROSS` calls `setCar` with the red line on and the
other two off, and a pass in state `ST_GREEN_CROSS` before the window has run
out (in the single-sensor program: one that finds `IllegalDetected` clear) calls
`setCar` with the green line on and the red and yellow lines off. -/
theorem crossing_lights (fuel : Nat) (s : TrafficVars) (i : TrafficIn) (bits : EventBits)
    (ign : Nat) :
    (s.st = TrafficState.ST_RED_IDLE → CrossingRequested bits = true →
      ((IllegalDetected bits = false ∨ CrossingActive bits = true) →
        ∃ o, Dual.TaskTraffic fuel s i bits ign = some o ∧
          o.vars.st = TrafficState.ST_GREEN_CROSS ∧ o.vars.car = setCar true false false) ∧
      (IllegalDetected bits = false →
        (Single.TaskTraffic s i bits).vars.st = TrafficState.ST_GREEN_CROSS ∧
        (Single.TaskTraffic s i bits).vars.car = setCar true false false)) ∧
    (s.st = TrafficState.ST_GREEN_CROSS → sub32 i.tElapsed s.crossStart < GREEN_CROSS_MS →
      (∃ o, Dual.TaskTraffic fuel s i bits ign = some o ∧
        o.vars.st = TrafficState.ST_GREEN_CROSS ∧ o.vars.car = setCar false false true) ∧
      (IllegalDetected bits = false →
        (Single.TaskTraffic s i bits).vars.st = TrafficState.ST_GREEN_CROSS ∧
        (Single.TaskTraffic s i bits).vars.car = setCar false false true)) := by
  constructor
  · intro hst hreq
    have hne : ¬ s.st = TrafficState.ST_ILLEGAL := by rw [hst]; decide
    constructor
    · intro h
      refine ⟨_, dual_taskTraffic_normal fuel s i bits ign
        (h.elim Or.inl (fun h2 => Or.inr (Or.inl h2))), ?_⟩
      rw [normalStates_idle_request s i bits ign hst hreq]
      exact ⟨rfl, rfl⟩
    · intro hill
      rw [single_taskTraffic_legal s i bits hill, if_neg hne,
        normalStates_idle_request s i bits 0 hst hreq]
      exact ⟨rfl, rfl⟩
  · intro hst hel
    have hne : ¬ s.st = TrafficState.ST_ILLEGAL := by rw [hst]; decide
    constructor
    · refine ⟨_, dual_taskTraffic_normal fuel s i bits ign (Or.inr (Or.inr hst)), ?_⟩
      rw [normalStates_green_running s i bits ign hst hel]
      exact ⟨rfl, rfl⟩
    · intro hill
      rw [single_taskTraffic_legal s i bits hill, if_neg hne,
        normalStates_green_running s i bits 0 hst hel]
      exact ⟨rfl, rfl⟩

/-- C13 amended, at an instance: the dual-sensor program 20 ms into the window. -/
theorem crossing_lights_witness :
    ∃ o, Dual.TaskTraffic 0 ⟨TrafficState.ST_GREEN_CROSS, 210, setCar true false false, LOW⟩
        (trafficAt 230) EVT_CROSS_ACTIVE 0 = some o ∧
      o.vars.st = TrafficState.ST_GREEN_CROSS ∧ o.vars.car = setCar false false true :=
  ((crossing_lights 0 ⟨TrafficState.ST_GREEN_CROSS, 210, setCar true false false, LOW⟩
    (trafficAt 230) EVT_CROSS_ACTIVE 0).2 rfl (by decide)).1

/-! ## The traffic task, single-sensor program: the alert follows the flag -/

/-- The `switch (st)` never enters `ST_ILLEGAL`. -/
theorem normalStates_not_illegal (s : TrafficVars) (i : TrafficIn) (bits : EventBits) (ign : Nat)
    (hst : s.st ≠ TrafficState.ST_ILLEGAL) :
    (normalStates s i bits ign).vars.st ≠ TrafficState.ST_ILLEGAL := by
  cases h : s.st with
  | ST_RED_IDLE =>
    simp only [normalStates, h]
    split_ifs <;> simp
  | ST_GREEN_CROSS =>
    simp only [normalStates, h]
    split_ifs <;> simp
  | ST_ILLEGAL => exact absurd h hst

/-- C14: after a pass of the single-sensor `TaskTraffic` the state is `ST_ILLEGAL`
exactly when the pass found `IllegalDetected` set; a pass in state `ST_ILLEGAL`
that finds the flag clear goes to `ST_RED_IDLE` with the lights red (the red line
on, the yellow and green lines off) in that same pass, leaves the event bits as
they are, does so whatever the clock readings, and writes no cooldown (the
result carries the fixed value 0). -/
theorem alert_follows_flag (s : TrafficVars) (i : TrafficIn) (bits : EventBits) :
    ((Single.TaskTraffic s i bits).vars.st = TrafficState.ST_ILLEGAL ↔
      IllegalDetected bits = true) ∧
    (s.st = TrafficState.ST_ILLEGAL → IllegalDetected bits = false →
      (Single.TaskTraffic s i bits).vars.st = TrafficState.ST_RED_IDLE ∧
      (Single.TaskTraffic s i bits).vars.car = { r := true, y := false, g := false } ∧
      (Single.TaskTraffic s i bits).gEvent = bits ∧
      (Single.TaskTraffic s i bits).gIllegalIgnoreUntil = 0 ∧
      ∀ j : TrafficIn, Single.TaskTraffic s j bits = Single.TaskTraffic s i bits) := by
  constructor
  · cases hill : IllegalDetected bits with
    | true =>
      rw [single_taskTraffic_illegal s i bits hill]
      simp
    | false =>
      rw [single_taskTraffic_legal s i bits hill]
      by_cases hs : s.st = TrafficState.ST_ILLEGAL
      · simp [hs]
      · simp only [hs, if_false, Bool.false_eq_true, iff_false]
        exact normalStates_not_illegal s i bits 0 hs
  · intro hst hill
    refine ⟨?_, ?_, ?_, ?_, ?_⟩
    · rw [single_taskTraffic_legal s i bits hill, if_pos hst]
    · rw [single_taskTraffic_legal s i bits hill, if_pos hst]
      rfl
    · rw [single_taskTraffic_legal s i bits hill, if_pos hst]
    · rw [single_taskTraffic_legal s i bits hill, if_pos hst]
    · intro j
      rw [single_taskTraffic_legal s i bits hill, single_taskTraffic_legal s j bits hill,
        if_pos hst, if_pos hst]

/-- C14, at an instance: the pass right after the one that entered the alert, the
flag cleared in between. -/
theorem alert_follows_flag_witness :
    (Single.TaskTraffic ⟨TrafficState.ST_ILLEGAL, 0, setCar false true false, LOW⟩
      (trafficAt 300) 0).vars.st = TrafficState.ST_RED_IDLE ∧
    (Single.TaskTraffic ⟨TrafficState.ST_ILLEGAL, 0, setCar false true false, LOW⟩
      (trafficAt 300) 0).vars.car = { r := true, y := false, g := false } :=
  ⟨((alert_follows_flag ⟨TrafficState.ST_ILLEGAL, 0, setCar false true false, LOW⟩
      (trafficAt 300) 0).2 rfl (by decide)).1,
   ((alert_follows_flag ⟨TrafficState.ST_ILLEGAL, 0, setCar false true false, LOW⟩
      (trafficAt 300) 0).2 rfl (by decide)).2.1⟩

/-! ## Who writes `IllegalDetected` -/

/-- The `switch (st)` leaves `IllegalDetected` as it is. -/
theorem normalStates_illegalDetected (s : TrafficVars) (i : TrafficIn) (bits : EventBits)
    (ign : Nat) : IllegalDetected (normalStates s i bits ign).gEvent = IllegalDetected bits := by
  cases h : s.st with
  | ST_RED_IDLE =>
    simp only [normalStates, h]
    split_ifs
    · exact (flags_after_start bits).2.2
    · rfl
  | ST_GREEN_CROSS =>
    simp only [normalStates, h]
    split_ifs
    · exact illegalDetected_clear_active bits
    · rfl
  | ST_ILLEGAL => simp only [normalStates, h]

/-- No pass of `TaskButton` changes `IllegalDetected`. -/
theorem dual_taskButton_illegalDetected (s : ButtonVars) (i : ButtonIn) (bits : EventBits) :
    IllegalDetected (Dual.TaskButton s i bits).gEvent = IllegalDetected bits := by
  simp only [Dual.TaskButton]
  split_ifs <;> first | rfl | exact illegalDetected_set_req bits

/-- C15 as stated fails: the alert pass of the dual-sensor `TaskTraffic` finds
`IllegalDetected` set and leaves it clear (line 236). -/
theorem controller_clears_illegal :
    IllegalDetected EVT_ILLEGAL = true ∧
    (Dual.TaskTraffic 11 TrafficVars.init alertClock EVT_ILLEGAL 0).map
      (fun o => IllegalDetected o.gEvent) = some false := by
  decide

/-- C15, amended: no pass of `TaskButton`, in either program, and no pass of the
single-sensor `TaskTraffic` changes `IllegalDetected`; a pass of the dual-sensor
`TaskTraffic` leaves it unchanged unless it is an alert pass (flag set,
`CrossingActive` clear, state not `ST_GREEN_CROSS`), which ends with the flag
cleared; no pass of either controller sets it. -/
theorem illegal_written_by_correlator_and_alert_end (fuel : Nat) (s : TrafficVars)
    (i : TrafficIn) (bits : EventBits) (ign : Nat) (b : ButtonVars) (bi : ButtonIn) :
    IllegalDetected (Dual.TaskButton b bi bits).gEvent = IllegalDetected bits ∧
    IllegalDetected (Single.TaskButton b bi bits).gEvent = IllegalDetected bits ∧
    IllegalDetected (Single.TaskTraffic s i bits).gEvent = IllegalDetected bits ∧
    (∀ o, Dual.TaskTraffic fuel s i bits ign = some o →
      ((IllegalDetected bits = false ∨ CrossingActive bits = true ∨
          s.st = TrafficState.ST_GREEN_CROSS) →
        IllegalDetected o.gEvent = IllegalDetected bits) ∧
      ((IllegalDetected bits = true ∧ CrossingActive bits = false ∧
          s.st ≠ TrafficState.ST_GREEN_CROSS) →
        IllegalDetected o.gEvent = false) ∧
      (IllegalDetected o.gEvent = true → IllegalDetected bits = true)) := by
  refine ⟨dual_taskButton_illegalDetected b bi bits, ?_, ?_, ?_⟩
  · rw [(single_taskButton_eq b bi bits).2]
    exact dual_taskButton_illegalDetected b bi bits
  · cases hill : IllegalDetected bits with
    | true =>
      rw [single_taskTraffic_illegal s i bits hill]
      by_cases hs : s.st = TrafficState.ST_ILLEGAL
      · simp [hs, hill]
      · have hb : (s.st != TrafficState.ST_ILLEGAL) = true := by simpa using hs
        simp only [hb, if_true]
        rw [illegalDetected_clear_req, illegalDetected_clear_active, hill]
    | false =>
      rw [single_taskTraffic_legal s i bits hill]
      by_cases hs : s.st = TrafficState.ST_ILLEGAL
      · simp [hs, hill]
      · simp only [hs, if_false]
        rw [normalStates_illegalDetected, hill]
  · intro o ho
    have hnormal : (IllegalDetected bits = false ∨ CrossingActive bits = true ∨
        s.st = TrafficState.ST_GREEN_CROSS) → IllegalDetected o.gEvent = IllegalDetected bits := by
      intro h
      rw [dual_taskTraffic_normal fuel s i bits ign h, Option.some.injEq] at ho
      rw [← ho]
      exact normalStates_illegalDetected s i bits ign
    have halert : (IllegalDetected bits = true ∧ CrossingActive bits = false ∧
        s.st ≠ TrafficState.ST_GREEN_CROSS) → IllegalDetected o.gEvent = false := by
      rintro ⟨h1, h2, h3⟩
      have hi : hasBits bits EVT_ILLEGAL = true := h1
      have ha : hasBits bits EVT_CROSS_ACTIVE = false := h2
      simp only [Dual.TaskTraffic, hi, ha, Bool.not_false, Bool.and_self, Bool.true_and,
        bne_iff_ne, ne_eq, h3, not_false_eq_true, if_true] at ho
      cases hl : Dual.alertLoop (u32 i.t0) i.loopClk fuel 0 with
      | none => simp [hl] at ho
      | some n =>
        simp only [hl, Option.some.injEq] at ho
        rw [← ho]
        exact illegalDetected_clear _
    refine ⟨hnormal, halert, ?_⟩
    intro hset
    cases hill : IllegalDetected bits with
    | true => rfl
    | false =>
      rw [hnormal (Or.inl hill), hill] at hset
      exact hset

/-- C15 amended, at an instance: the alert pass that refutes the claim as stated,
and a pass in state `ST_GREEN_CROSS` that finds the flag set and keeps it. -/
theorem illegal_written_by_correlator_and_alert_end_witness :
    IllegalDetected (xEventGroupClearBits (xEventGroupClearBits EVT_ILLEGAL EVT_CROSS_REQ)
      EVT_ILLEGAL) = false ∧
    IllegalDetected (normalStates ⟨TrafficState.ST_GREEN_CROSS, 210, setCar false false true, LOW⟩
      (trafficAt 230) 6 0).gEvent = IllegalDetected 6 :=
  ⟨((illegal_written_by_correlator_and_alert_end 11 TrafficVars.init alertClock EVT_ILLEGAL 0
      ButtonVars.init ⟨HIGH, 0, 0⟩).2.2.2
      ⟨⟨TrafficState.ST_RED_IDLE, 0, setCar true false false, LOW⟩,
        xEventGroupClearBits (xEventGroupClearBits EVT_ILLEGAL EVT_CROSS_REQ) EVT_ILLEGAL,
        8500, 10⟩
      (by decide)).2.1 ⟨by decide, by decide, by decide⟩,
   ((illegal_written_by_correlator_and_alert_end 0
      ⟨TrafficState.ST_GREEN_CROSS, 210, setCar false false true, LOW⟩ (trafficAt 230) 6 0
      ButtonVars.init ⟨HIGH, 0, 0⟩).2.2.2
      (normalStates ⟨TrafficState.ST_GREEN_CROSS, 210, setCar false false true, LOW⟩
        (trafficAt 230) 6 0)
      (by decide)).1 (Or.inr (Or.inr rfl))⟩

/-! ## The dual-sensor program with an alert that other tasks can interleave -/

/-- The end of the alert does not depend on what the passes of its loop wrote. -/
theorem alertEnd_alertBeep (x : Dual.Sys) (i : TrafficIn) (t0 k : Nat) :
    Dual.alertEnd (Dual.alertBeep x t0 k).sys i = Dual.alertEnd x i := rfl

/-- Left alone, the steps of the alert loop reach the end of the alert after as
many passes as `alertLoop` counts. -/
theorem fine_alert_loop (i : TrafficIn) (t0 : Nat) :
    ∀ fuel k n (x : Dual.Sys), Dual.alertLoop t0 i.loopClk fuel k = some n →
      ∃ d, n = k + d ∧
        (fun y : Dual.FineSys => y.stepTraffic i)^[d + 1] ⟨x, Dual.Phase.alert t0 k⟩ =
          Dual.alertEnd x i := by
  intro fuel
  induction fuel with
  | zero => intro k n x h; simp [Dual.alertLoop] at h
  | succ fuel ih =>
    intro k n x h
    by_cases hc : sub32 (i.loopClk k) t0 < ILLEGAL_RUN_MS
    · simp only [Dual.alertLoop, hc, if_true] at h
      obtain ⟨d, hd, hrun⟩ := ih (k + 1) n (Dual.alertBeep x t0 k).sys h
      refine ⟨d + 1, by omega, ?_⟩
      rw [Function.iterate_succ_apply]
      have hstep : Dual.FineSys.stepTraffic ⟨x, Dual.Phase.alert t0 k⟩ i =
          Dual.alertBeep x t0 k := by
        simp only [Dual.FineSys.stepTraffic, hc, if_true]
      rw [hstep]
      exact hrun
    · simp only [Dual.alertLoop, hc, if_false, Option.some.injEq] at h
      refine ⟨0, by omega, ?_⟩
      simp only [Nat.zero_add, Function.iterate_one, Dual.FineSys.stepTraffic, hc, if_false]

/-- The steps of the traffic task, left alone, do what a whole pass does. -/
theorem fine_agrees_with_pass (fuel : Nat) (s s1 : Dual.Sys) (i : TrafficIn)
    (h : s.stepTraffic fuel i = some s1) :
    ∃ m, (fun y : Dual.FineSys => y.stepTraffic i)^[m] ⟨s, Dual.Phase.top⟩ =
      ⟨s1, Dual.Phase.top⟩ := by
  simp only [Dual.Sys.stepTraffic, Dual.TaskTraffic] at h
  by_cases hg : (hasBits s.gEvent EVT_ILLEGAL && !hasBits s.gEvent EVT_CROSS_ACTIVE &&
      s.traffic.st != TrafficState.ST_GREEN_CROSS) = true
  · simp only [hg, if_true] at h
    cases hl : Dual.alertLoop (u32 i.t0) i.loopClk fuel 0 with
    | none => simp [hl] at h
    | some n =>
      simp only [hl, Option.map_some', Option.some.injEq] at h
      obtain ⟨d, -, hrun⟩ :=
        fine_alert_loop i (u32 i.t0) fuel 0 n (Dual.alertBegin s i).sys hl
      refine ⟨d + 1 + 1, ?_⟩
      rw [Function.iterate_succ_apply]
      have hstep : Dual.FineSys.stepTraffic ⟨s, Dual.Phase.top⟩ i = Dual.alertBegin s i := by
        simp only [Dual.FineSys.stepTraffic, hg, if_true]
      rw [hstep]
      have hb : Dual.alertBegin s i = ⟨(Dual.alertBegin s i).sys, Dual.Phase.alert (u32 i.t0) 0⟩ := rfl
      rw [hb, hrun, ← h]
      rfl
  · simp only [hg, if_false, Option.map_some', Option.some.injEq, Bool.false_eq_true] at h
    refine ⟨1, ?_⟩
    simp only [Function.iterate_one, Dual.FineSys.stepTraffic, hg, if_false, Bool.false_eq_true]
    rw [← h]

/-- C16 fails on the code: in the run `requestInAlert` the motion task clears
`IllegalDetected` while the alert is running (its pass at time 2720 finds both
timestamps stale), the pass of `TaskButton` at time 2790 then finds neither
`CrossingActive` nor `IllegalDetected` and sets `CrossingRequested` inside the
alert, and the request is still pending when the alert has ended at time 4410 and
the controller is back in `ST_RED_IDLE`; its next pass starts a crossing. -/
theorem request_set_inside_alert :
    ((Dual.fineRun (requestInAlert.take 8)).inAlert = true ∧
      IllegalDetected (Dual.fineRun (requestInAlert.take 8)).sys.gEvent = true) ∧
    ((Dual.fineRun (requestInAlert.take 9)).inAlert = true ∧
      IllegalDetected (Dual.fineRun (requestInAlert.take 9)).sys.gEvent = false ∧
      CrossingRequested (Dual.fineRun (requestInAlert.take 9)).sys.gEvent = false) ∧
    ((Dual.fineRun requestInAlert).inAlert = true ∧
      CrossingRequested (Dual.fineRun requestInAlert).sys.gEvent = true) ∧
    ((Dual.fineRun (requestInAlert ++ restOfAlert)).phase = Dual.Phase.top ∧
      (Dual.fineRun (requestInAlert ++ restOfAlert)).sys.traffic.st = TrafficState.ST_RED_IDLE ∧
      (Dual.fineRun (requestInAlert ++ restOfAlert)).sys.gIllegalIgnoreUntil = 9410 ∧
      CrossingRequested (Dual.fineRun (requestInAlert ++ restOfAlert)).sys.gEvent = true) ∧
    ((Dual.fineRun (requestInAlert ++ restOfAlert)).stepTraffic (trafficAt 4610)).sys.traffic.st =
      TrafficState.ST_GREEN_CROSS := by
  decide

/-! ## The alert with beeps of 300 ms -/

/-- When the alert loop is left, the test that left it showed `ILLEGAL_RUN_MS`
elapsed and every test before it showed less. -/
theorem alertLoop_some (t0 : Nat) (clk : Nat → Nat) :
    ∀ fuel k n, Dual.alertLoop t0 clk fuel k = some n →
      k ≤ n ∧ ILLEGAL_RUN_MS ≤ sub32 (clk n) t0 ∧
      ∀ j, k ≤ j → j < n → sub32 (clk j) t0 < ILLEGAL_RUN_MS := by
  intro fuel
  induction fuel with
  | zero => intro k n h; simp [Dual.alertLoop] at h
  | succ fuel ih =>
    intro k n h
    by_cases hc : sub32 (clk k) t0 < ILLEGAL_RUN_MS
    · simp only [Dual.alertLoop, hc, if_true] at h
      obtain ⟨h1, h2, h3⟩ := ih (k + 1) n h
      refine ⟨by omega, h2, ?_⟩
      intro j hj1 hj2
      by_cases hj : j = k
      · subst hj; exact hc
      · exact h3 j (by omega) hj2
    · simp only [Dual.alertLoop, hc, if_false, Option.some.injEq] at h
      subst h
      exact ⟨Nat.le_refl _, by omega, fun j hj1 hj2 => by omega⟩

theorem sub32_beepClock (t k : Nat) :
    sub32 (beepClock t k) (u32 t) = (300 * k) % 4294967296 := by
  unfold sub32 u32 beepClock BEEP_ON_MS BEEP_OFF_MS; omega

/-- With beeps of 300 ms the alert loop makes exactly 10 passes. -/
theorem alertLoop_beepClock (t fuel : Nat) (clk : Nat → Nat) (hclk : ∀ k, clk k = beepClock t k)
    (hfuel : 10 < fuel) : Dual.alertLoop (u32 t) clk fuel 0 = some 10 := by
  have h10 : ILLEGAL_RUN_MS ≤ sub32 (clk 10) (u32 t) := by
    rw [hclk, sub32_beepClock]; simp [ILLEGAL_RUN_MS]
  obtain ⟨n, h1, -, h3, h4, -⟩ := alertLoop_exit (u32 t) clk fuel 0 10 (Nat.zero_le _) h10 (by omega)
  rw [hclk, sub32_beepClock, Nat.mod_eq_of_lt (by omega)] at h4
  simp only [ILLEGAL_RUN_MS] at h4
  have hn : n = 10 := by omega
  rw [h1, hn]

/-- C17: in an alert pass of the dual-sensor `TaskTraffic` started at time `t` in
which the clock moves on by 300 ms with every call of `beepOnce` and by nothing
else, the loop makes exactly 10 passes and is left at time `t + 3000`; with the
clock of line 242 read at that time, `gIllegalIgnoreUntil` is `t + 8000` (the
32-bit sum, the plain one when it stays below `2 ^ 32`). Whatever the clock, the
alert loop is left only at a test that shows at least 3000 ms elapsed. -/
theorem alert_of_ten_beeps (fuel : Nat) (s : TrafficVars) (i : TrafficIn) (bits : EventBits)
    (ign t : Nat) (hill : IllegalDetected bits = true) (hact : CrossingActive bits = false)
    (hst : s.st ≠ TrafficState.ST_GREEN_CROSS)
    (ht0 : i.t0 = t) (hclk : ∀ k, i.loopClk k = beepClock t k) (hfuel : 10 < fuel) :
    (∃ o, Dual.TaskTraffic fuel s i bits ign = some o ∧ o.beeps = 10 ∧
      i.loopClk o.beeps = t + 3000 ∧
      (i.tEnd = i.loopClk o.beeps →
        o.gIllegalIgnoreUntil = (t + 8000) % 4294967296 ∧
        (t + 8000 < 4294967296 → o.gIllegalIgnoreUntil = t + 8000))) ∧
    (∀ (t0 : Nat) (clk : Nat → Nat) (f n : Nat), Dual.alertLoop t0 clk f 0 = some n →
      ILLEGAL_RUN_MS ≤ sub32 (clk n) t0 ∧ ∀ j, j < n → sub32 (clk j) t0 < ILLEGAL_RUN_MS) := by
  constructor
  · have hi : hasBits bits EVT_ILLEGAL = true := hill
    have ha : hasBits bits EVT_CROSS_ACTIVE = false := hact
    have hl := alertLoop_beepClock t fuel i.loopClk hclk hfuel
    refine ⟨{ vars := { st := TrafficState.ST_RED_IDLE, crossStart := s.crossStart,
                        car := setCar true false false, buzzer := LOW },
              gEvent := xEventGroupClearBits (xEventGroupClearBits bits EVT_CROSS_REQ) EVT_ILLEGAL,
              gIllegalIgnoreUntil := add32 i.tEnd ILLEGAL_WAIT_MS, beeps := 10 }, ?_, rfl, ?_, ?_⟩
    · simp [Dual.TaskTraffic, hi, ha, hst, ht0, hl]
    · simp only [hclk, beepClock, BEEP_ON_MS, BEEP_OFF_MS]
    · intro hend
      have he : i.tEnd = t + 3000 := by
        rw [hend]
        simp only [hclk, beepClock, BEEP_ON_MS, BEEP_OFF_MS]
      have hsum : add32 i.tEnd ILLEGAL_WAIT_MS = (t + 8000) % 4294967296 := by
        rw [he]
        simp only [add32, ILLEGAL_WAIT_MS]
      exact ⟨hsum, fun hlt => hsum.trans (Nat.mod_eq_of_lt hlt)⟩
  · intro t0 clk f n h
    obtain ⟨-, h2, h3⟩ := alertLoop_some t0 clk f 0 n h
    exact ⟨h2, fun j hj => h3 j (Nat.zero_le _) hj⟩

/-- C17, at an instance: an alert started at time 500 ends at 3500 and writes
`gIllegalIgnoreUntil = 8500`. -/
theorem alert_of_ten_beeps_witness :
    ∃ o, Dual.TaskTraffic 11 TrafficVars.init alertClock EVT_ILLEGAL 0 = some o ∧ o.beeps = 10 ∧
      alertClock.loopClk o.beeps = 500 + 3000 ∧
      (alertClock.tEnd = alertClock.loopClk o.beeps →
        o.gIllegalIgnoreUntil = (500 + 8000) % 4294967296 ∧
        (500 + 8000 < 4294967296 → o.gIllegalIgnoreUntil = 500 + 8000)) :=
  (alert_of_ten_beeps 11 TrafficVars.init alertClock EVT_ILLEGAL 0 500 (by decide) (by decide)
    (by decide) rfl (fun _ => rfl) (by decide)).1

/-! ## The cooldown and the 32-bit clock -/

/-- While `t + 5000` stays below `2 ^ 32`, a pass of the motion task less than
5000 ms after the alert ended at `t` finds its clock before `gIllegalIgnoreUntil`. -/
theorem cooldown_without_wrap (t now : Nat) (ht : t + 5000 < 4294967296) (hn : now < 4294967296)
    (h : sub32 now t < 5000) : u32 now < add32 t ILLEGAL_WAIT_MS := by
  unfold sub32 at h
  unfold u32 add32 ILLEGAL_WAIT_MS
  omega

/-- C18 fails on the code: an alert that ends at time `2 ^ 32 - 1000` writes
`gIllegalIgnoreUntil = 4000`; the pass of the motion task 100 ms later reads the
clock `2 ^ 32 - 900`, which is not below 4000, so it is not suppressed, and with
both sensors confirmed it sets `IllegalDetected` inside the cooldown. -/
theorem cooldown_lost_at_wrap :
    (Dual.TaskTraffic 11 TrafficVars.init alertBeforeWrap EVT_ILLEGAL 0).map
      (fun o => o.gIllegalIgnoreUntil) = some 4000 ∧
    add32 4294966296 ILLEGAL_WAIT_MS = 4000 ∧
    sub32 4294966396 4294966296 = 100 ∧
    Dual.suppressed ⟨4294966396, true, true⟩ 0 4000 = false ∧
    IllegalDetected (Dual.TaskPIR PirVars.init ⟨4294966396, true, true⟩ 0 4000).gEvent = true := by
  decide

/-! ## Stale timestamps -/

/-- C19 as stated fails: with sensor 1 last confirmed at time 1000, a pass at time
2000 that confirms sensor 2 is not suppressed and does not find `both`; the
timestamp of sensor 1 is 1000 ms old and is kept. -/
theorem stale_timestamp_kept :
    Dual.suppressed ⟨2000, false, true⟩ 0 0 = false ∧
    Dual.both 1000 2000 = false ∧
    sub32 2000 1000 > BOTH_WINDOW_MS ∧
    (Dual.TaskPIR ⟨1000, 0⟩ ⟨2000, false, true⟩ 0 0).vars = ⟨1000, 2000⟩ := by
  decide

/-- C19, amended: after a pass of the dual-sensor `TaskPIR` that is not suppressed
and does not find `both`, the two timestamps are both `0` when each of them is
stale (never, or more than 800 ms before the pass); when at least one of them is
not stale, both are kept, the stale one too. -/
theorem stale_timestamps_reset_together (s : PirVars) (i : PirIn) (bits : EventBits) (ign : Nat)
    (hact : CrossingActive bits = false) (hnow : ign ≤ u32 i.now)
    (hboth : Dual.both (if i.m1 then u32 i.now else s.tPir1)
      (if i.m2 then u32 i.now else s.tPir2) = false) :
    ((Dual.stale (u32 i.now) (if i.m1 then u32 i.now else s.tPir1) = true ∧
        Dual.stale (u32 i.now) (if i.m2 then u32 i.now else s.tPir2) = true) →
      (Dual.TaskPIR s i bits ign).vars = ⟨0, 0⟩) ∧
    (¬ (Dual.stale (u32 i.now) (if i.m1 then u32 i.now else s.tPir1) = true ∧
        Dual.stale (u32 i.now) (if i.m2 then u32 i.now else s.tPir2) = true) →
      (Dual.TaskPIR s i bits ign).vars =
        ⟨if i.m1 then u32 i.now else s.tPir1, if i.m2 then u32 i.now else s.tPir2⟩) := by
  rw [dual_taskPIR_unsuppressed s i bits ign hact hnow, hboth]
  generalize (if i.m1 = true then u32 i.now else s.tPir1) = t1
  generalize (if i.m2 = true then u32 i.now else s.tPir2) = t2
  constructor
  · rintro ⟨h1, h2⟩
    simp [h1, h2]
  · intro h
    have h2 : ¬ (Dual.stale (u32 i.now) t1 && Dual.stale (u32 i.now) t2) = true := by
      simpa using h
    simp only [Bool.false_eq_true, if_false, h2]

/-- C19 amended, at an instance: the pass that refutes the claim as stated. -/
theorem stale_timestamps_reset_together_witness :
    (Dual.TaskPIR ⟨1000, 0⟩ ⟨2000, false, true⟩ 0 0).vars =
      ⟨if (⟨2000, false, true⟩ : PirIn).m1 then u32 2000 else 1000,
       if (⟨2000, false, true⟩ : PirIn).m2 then u32 2000 else 0⟩ :=
  (stale_timestamps_reset_together ⟨1000, 0⟩ ⟨2000, false, true⟩ 0 0 (by decide) (by decide)
    (by decide)).2 (by decide)

/-! ## The helper `confirmHigh` -/

/-- Whatever `confirmHigh` returns after entering its loop: every reading of the pin
but the last was `HIGH`; and when it returns `true`, the last reading of the
clock showed `confirmMs` elapsed. -/
theorem confirmLoop_some (e : ConfirmIn) (t0 c : Nat) :
    ∀ fuel k o, confirmLoop e t0 c fuel k = some o →
      k + 2 ≤ o.pinReads ∧ 1 ≤ o.clkReads ∧
      (∀ j, k < j → j + 1 < o.pinReads → e.pin j = HIGH) ∧
      (o.result = true → c ≤ sub32 (e.clk (o.clkReads - 1)) t0) := by
  intro fuel
  induction fuel with
  | zero => intro k o h; simp [confirmLoop] at h
  | succ fuel ih =>
    intro k o h
    by_cases hp : (e.pin (k + 1) == HIGH) = true
    · by_cases hc : sub32 (e.clk (k + 1)) t0 < c
      · simp only [confirmLoop, hp, hc, if_true] at h
        obtain ⟨h1, h2, h3, h4⟩ := ih (k + 1) o h
        refine ⟨by omega, h2, ?_, h4⟩
        intro j hj1 hj2
        by_cases hj : j = k + 1
        · subst hj; simpa using hp
        · exact h3 j (by omega) hj2
      · simp only [confirmLoop, hp, hc, if_true, if_false, Option.some.injEq] at h
        subst h
        refine ⟨Nat.le_refl _, by simp, fun j hj1 hj2 => by simp at hj2; omega, ?_⟩
        intro hr
        simpa using hr
    · simp only [confirmLoop, hp, if_false, Option.some.injEq, Bool.false_eq_true] at h
      subst h
      refine ⟨Nat.le_refl _, by simp, fun j hj1 hj2 => by simp at hj2; omega, ?_⟩
      intro hr
      simpa using hr

/-- What holds of `confirmHigh`: a first reading `LOW` gives `false` at once, with
no further reading and no reading of the clock; a result `true` needs the first
reading and every reading but the last to be `HIGH` and the clock read last to
show `confirmMs` elapsed since the clock read first. -/
theorem confirmHigh_facts (e : ConfirmIn) (c fuel : Nat) :
    (e.pin 0 = LOW → confirmHigh e c fuel = some ⟨false, 1, 0⟩) ∧
    (∀ o, confirmHigh e c fuel = some o → o.result = true →
      (∀ j, j + 1 < o.pinReads → e.pin j = HIGH) ∧
      c ≤ sub32 (e.clk (o.clkReads - 1)) (u32 (e.clk 0))) := by
  constructor
  · intro h
    simp [confirmHigh, h]
  · intro o h hr
    by_cases hp : (e.pin 0 == LOW) = true
    · simp only [confirmHigh, hp, if_true, Option.some.injEq] at h
      subst h
      exact absurd hr (by decide)
    · simp only [confirmHigh, hp, if_false, Bool.false_eq_true] at h
      obtain ⟨-, -, h3, h4⟩ := confirmLoop_some e (u32 (e.clk 0)) c fuel 0 o h
      refine ⟨?_, h4 hr⟩
      intro j hj
      rcases Nat.eq_zero_or_pos j with h0 | h0
      · subst h0
        cases hv : e.pin 0 with
        | true => rfl
        | false => simp [hv, LOW] at hp
      · exact h3 j h0 hj

/-- C20 fails on the code: the sensor is read `HIGH` at the first reading and at the
loop tests taken 0, 20, ..., 180 ms after the start, and `LOW` at the test taken
200 ms after the start; the loop is left on that `LOW` reading, the clock read
for the `return` shows 200 ms elapsed, and `confirmHigh(pin, 200)` returns
`true`, though the last of its 12 readings of the pin was `LOW`. -/
theorem confirmHigh_true_after_low_reading :
    confirmHigh dropAtEnd PIR_CONFIRM_MS 20 = some ⟨true, 12, 12⟩ ∧
    dropAtEnd.pin 11 = LOW ∧
    sub32 (dropAtEnd.clk 11) (u32 (dropAtEnd.clk 0)) = 200 ∧
    confirmHigh steadyHigh PIR_CONFIRM_MS 20 = some ⟨true, 12, 13⟩ := by
  decide

/-! ## The single-sensor program: requests and the alert -/

/-- C21 as stated fails: in the reachable state `Single.requestDuringAlert` the
controller is in `ST_ILLEGAL` with `IllegalDetected` and `CrossingRequested` both
set; the traffic pass that follows finds `IllegalDetected` set, skips the writes
of lines 508-513 and ends with `CrossingRequested` still set. -/
theorem request_pending_after_alert_pass :
    Single.Reachable Single.requestDuringAlert ∧
    Single.requestDuringAlert.traffic.st = TrafficState.ST_ILLEGAL ∧
    IllegalDetected Single.requestDuringAlert.gEvent = true ∧
    CrossingRequested Single.requestDuringAlert.gEvent = true ∧
    (Single.requestDuringAlert.stepTraffic (trafficAt 1420)).traffic.st = TrafficState.ST_ILLEGAL ∧
    CrossingRequested (Single.requestDuringAlert.stepTraffic (trafficAt 1420)).gEvent = true :=
  ⟨Single.Reachable.pir _ true
      (Single.Reachable.button _ ⟨LOW, 1070, 1070⟩
        (Single.Reachable.button _ ⟨LOW, 1010, 1010⟩
          (Single.Reachable.pir _ false
            (Single.Reachable.traffic _ (trafficAt 1000)
              (Single.Reachable.pir _ true Single.Reachable.init))))),
    by decide, by decide, by decide, by decide, by decide⟩

/-- C21, amended: a pass of the single-sensor `TaskTraffic` that finds
`IllegalDetected` set, taken in a state other than `ST_ILLEGAL`, ends with
`CrossingRequested` and `CrossingActive` both clear, whatever the flags; taken in
state `ST_ILLEGAL` it leaves the event bits as they are; and in every state the
program reaches, such a pass ends with `CrossingActive` clear. -/
theorem illegal_pass_clears_on_entry (s : TrafficVars) (i : TrafficIn) (bits : EventBits)
    (hill : IllegalDetected bits = true) :
    (s.st ≠ TrafficState.ST_ILLEGAL →
      CrossingRequested (Single.TaskTraffic s i bits).gEvent = false ∧
      CrossingActive (Single.TaskTraffic s i bits).gEvent = false) ∧
    (s.st = TrafficState.ST_ILLEGAL → (Single.TaskTraffic s i bits).gEvent = bits) ∧
    (∀ sys : Single.Sys, Single.Reachable sys → IllegalDetected sys.gEvent = true →
      CrossingActive (sys.stepTraffic i).gEvent = false) := by
  refine ⟨?_, ?_, ?_⟩
  · intro hst
    have hb : (s.st != TrafficState.ST_ILLEGAL) = true := by simpa using hst
    rw [single_taskTraffic_illegal s i bits hill]
    simp only [hb, if_true]
    exact ⟨crossingRequested_clear_req _,
      by rw [crossingActive_clear_req, crossingActive_clear_active]⟩
  · intro hst
    rw [single_taskTraffic_illegal s i bits hill]
    simp [hst]
  · intro sys hreach hsys
    have hinv := single_taskTraffic_activeIffGreen sys.traffic i sys.gEvent
      (single_reachable_activeIffGreen sys hreach)
    have hst : (Single.TaskTraffic sys.traffic i sys.gEvent).vars.st = TrafficState.ST_ILLEGAL := by
      rw [single_taskTraffic_illegal sys.traffic i sys.gEvent hsys]
    unfold ActiveIffGreen at hinv
    rw [hst] at hinv
    cases hc : CrossingActive (sys.stepTraffic i).gEvent with
    | false => rfl
    | true =>
      have h2 : CrossingActive (Single.TaskTraffic sys.traffic i sys.gEvent).gEvent = true := hc
      exact absurd (hinv.mp h2) (by decide)

/-- C21 amended, at an instance: motion seen 20 ms into a crossing with a second
request pending, and the pass that follows. -/
theorem illegal_pass_clears_on_entry_witness :
    (CrossingRequested (Single.TaskTraffic
        ⟨TrafficState.ST_GREEN_CROSS, 210, setCar false false true, LOW⟩ (trafficAt 230) 7).gEvent =
        false ∧
      CrossingActive (Single.TaskTraffic
        ⟨TrafficState.ST_GREEN_CROSS, 210, setCar false false true, LOW⟩ (trafficAt 230) 7).gEvent =
        false) ∧
    (Single.TaskTraffic ⟨TrafficState.ST_ILLEGAL, 210, setCar false true false, LOW⟩
      (trafficAt 530) 5).gEvent = 5 :=
  ⟨(illegal_pass_clears_on_entry ⟨TrafficState.ST_GREEN_CROSS, 210, setCar false false true, LOW⟩
      (trafficAt 230) 7 (by decide)).1 (by decide),
   (illegal_pass_clears_on_entry ⟨TrafficState.ST_ILLEGAL, 210, setCar false true false, LOW⟩
      (trafficAt 530) 5 (by decide)).2.1 rfl⟩

/-! ## The alert and the cooldown under the steps of the other tasks -/

/-- A whole pass of the motion task is its tests followed at once by its decision,
on the same event bits. -/
theorem stepPIR_split (s : Dual.Sys) (i : PirIn) :
    s.stepPIR i =
      match s.beginPIR i.now with
      | (s1, none) => s1
      | (s1, some now) => s1.finishPIR now i.m1 i.m2 := by
  simp only [Dual.Sys.stepPIR, Dual.TaskPIR, Dual.Sys.beginPIR, Dual.Sys.finishPIR, Dual.pirDecide]
  by_cases h0 : hasBits s.gEvent EVT_CROSS_ACTIVE = true
  · simp only [h0, if_true]
  · by_cases h1 : u32 i.now < s.gIllegalIgnoreUntil
    · simp only [h0, h1, if_true, if_false, Bool.false_eq_true]
    · simp only [h0, h1, if_false, Bool.false_eq_true]

/-- What the beginning of the alert (lines 212-220) does, whatever the state. -/
theorem alertBegin_facts (s : Dual.Sys) (i : TrafficIn) :
    (Dual.alertBegin s i).phase = Dual.Phase.alert (u32 i.t0) 0 ∧
    CrossingRequested (Dual.alertBegin s i).sys.gEvent = false ∧
    CrossingActive (Dual.alertBegin s i).sys.gEvent = CrossingActive s.gEvent ∧
    IllegalDetected (Dual.alertBegin s i).sys.gEvent = IllegalDetected s.gEvent ∧
    (Dual.alertBegin s i).sys.traffic.st = TrafficState.ST_ILLEGAL :=
  ⟨rfl, crossingRequested_clear_req _, crossingActive_clear_req _, illegalDetected_clear_req _, rfl⟩

/-- What the end of the alert (lines 233-244) does, whatever the other tasks wrote
to the event bits while the alert ran: it clears `IllegalDetected`, leaves the
two other flags as it finds them, switches the buzzer off, goes to `ST_RED_IDLE`
with the red line on and the other two off, and writes the cooldown. -/
theorem alertEnd_facts (s : Dual.Sys) (i : TrafficIn) :
    (Dual.alertEnd s i).phase = Dual.Phase.top ∧
    IllegalDetected (Dual.alertEnd s i).sys.gEvent = false ∧
    CrossingRequested (Dual.alertEnd s i).sys.gEvent = CrossingRequested s.gEvent ∧
    CrossingActive (Dual.alertEnd s i).sys.gEvent = CrossingActive s.gEvent ∧
    (Dual.alertEnd s i).sys.traffic.buzzer = LOW ∧
    (Dual.alertEnd s i).sys.traffic.st = TrafficState.ST_RED_IDLE ∧
    (Dual.alertEnd s i).sys.traffic.car = { r := true, y := false, g := false } ∧
    (Dual.alertEnd s i).sys.gIllegalIgnoreUntil = add32 i.tEnd ILLEGAL_WAIT_MS :=
  ⟨rfl, illegalDetected_clear _, crossingRequested_clear_illegal _, crossingActive_clear_illegal _,
    rfl, rfl, rfl, rfl⟩

/-- C9 fails on the code: the controller pass that starts in `ST_RED_IDLE` with
`IllegalDetected` set and `CrossingActive` clear begins the alert at time 1410
and clears `CrossingRequested` there (line 215); in the run `requestInAlert` the
button sets the request again at time 2790, inside the alert; the end of the
alert at time 4410 clears `IllegalDetected`, switches the buzzer off, goes to
`ST_RED_IDLE` with the red line on and writes `gIllegalIgnoreUntil = 9410`, but
leaves `CrossingRequested` set. -/
theorem alert_pass_ends_with_request_pending :
    ((Dual.fineRun (requestInAlert.take 1)).phase = Dual.Phase.top ∧
      IllegalDetected (Dual.fineRun (requestInAlert.take 1)).sys.gEvent = true ∧
      CrossingActive (Dual.fineRun (requestInAlert.take 1)).sys.gEvent = false ∧
      (Dual.fineRun (requestInAlert.take 1)).sys.traffic.st = TrafficState.ST_RED_IDLE) ∧
    ((Dual.fineRun (requestInAlert.take 2)).phase = Dual.Phase.alert 1410 0 ∧
      CrossingRequested (Dual.fineRun (requestInAlert.take 2)).sys.gEvent = false) ∧
    ((Dual.fineRun (requestInAlert ++ restOfAlert.take 5)).phase = Dual.Phase.alert 1410 10 ∧
      sub32 (alertAt1410.loopClk 10) 1410 = 3000) ∧
    ((Dual.fineRun (requestInAlert ++ restOfAlert)).phase = Dual.Phase.top ∧
      CrossingRequested (Dual.fineRun (requestInAlert ++ restOfAlert)).sys.gEvent = true ∧
      IllegalDetected (Dual.fineRun (requestInAlert ++ restOfAlert)).sys.gEvent = false ∧
      (Dual.fineRun (requestInAlert ++ restOfAlert)).sys.traffic.buzzer = LOW ∧
      (Dual.fineRun (requestInAlert ++ restOfAlert)).sys.traffic.st = TrafficState.ST_RED_IDLE ∧
      (Dual.fineRun (requestInAlert ++ restOfAlert)).sys.traffic.car =
        { r := true, y := false, g := false } ∧
      (Dual.fineRun (requestInAlert ++ restOfAlert)).sys.gIllegalIgnoreUntil = 4410 + 5000) := by
  decide

/-- C8 fails on the code: with the alert of `alertRunning` still running and
`gIllegalIgnoreUntil` still 0, a pass of the motion task reads the clock 4400,
passes the tests of lines 150 and 158 and goes to sleep in `confirmHigh`; the
alert ends at time 4410 and writes `gIllegalIgnoreUntil = 9410`; the pass then
comes out of `confirmHigh` with both sensors confirmed and sets `IllegalDetected`
(line 175), after the alert has completed and with its clock 4400 before
`gIllegalIgnoreUntil`; the traffic pass that follows begins a second alert. -/
theorem flag_set_in_cooldown_by_pass_in_flight :
    (alertRunning.inAlert = true ∧ alertRunning.sys.gIllegalIgnoreUntil = 0 ∧
      alertRunning.sys.beginPIR 4400 = (alertRunning.sys, some 4400)) ∧
    (alertEnded.phase = Dual.Phase.top ∧ alertEnded.sys.gIllegalIgnoreUntil = 9410 ∧
      IllegalDetected alertEnded.sys.gEvent = false) ∧
    (u32 4400 < alertEnded.sys.gIllegalIgnoreUntil ∧
      IllegalDetected passInFlightDone.sys.gEvent = true ∧
      passInFlightDone.sys.pir = ⟨4400, 4400⟩) ∧
    (passInFlightDone.stepTraffic (trafficAt 4810)).inAlert = true := by
  decide

end TrafficLight
